import Mathlib

/-!
Verification of the terraoptim cost-estimation engine.

This file gives a shallow embedding of the cost-model, free-tier,
recommendation and extraction routines of the repository
(src/terraoptim/resources/{dynamodb,s3,lambda_functions,glue,ec2}.py)
and proves or refutes the frozen specification claims about them.

Conventions of the embedding:
* Python floats are modelled as rationals (ℚ); `round(x, n)` is modelled by
  `pyRound x n`, exact round-half-to-even at `n` decimal digits on ℚ.
* Python exceptions are modelled with `Except String`; the string names the
  exception class raised by the corresponding Python expression
  ("KeyError", "TypeError", "AttributeError", "IndexError", "ValueError").
* The pricing gateway (boto3 pricing calls) is an external collaborator and
  is modelled as an injected function returning `Option ℚ` (`none` models a
  lookup that found no price; a price of `0` is "falsy" in Python and the
  code paths that test truthiness are translated accordingly).
* Terraform plan documents are modelled by the JSON-like type `JVal`, with
  `dict.get`, `d[k]` subscription, iteration and truthiness translated to
  match Python semantics.
-/

/-- Round-half-to-even of a rational to an integer, the rounding rule of
Python's built-in `round`. -/
def rhe (q : ℚ) : ℤ :=
  if q - ⌊q⌋ < 1/2 then ⌊q⌋
  else if 1/2 < q - ⌊q⌋ then ⌊q⌋ + 1
  else if ⌊q⌋ % 2 = 0 then ⌊q⌋ else ⌊q⌋ + 1

/-- Model of Python's `round(x, n)` on the rational model of floats:
round-half-to-even at `n` decimal digits. -/
def pyRound (x : ℚ) (n : ℕ) : ℚ := (rhe (x * 10 ^ n) : ℚ) / 10 ^ n

/-! ## JSON-like plan documents and Python dictionary semantics -/

/-- JSON-like values of a parsed Terraform plan document. -/
inductive JVal where
  | null
  | bool (b : Bool)
  | num (q : ℚ)
  | str (s : String)
  | arr (elems : List JVal)
  | obj (fields : List (String × JVal))

/-- Python `v == "lit"` for a string literal: true only for an equal string. -/
def JVal.eqStr : JVal → String → Bool
  | .str s, t => s = t
  | _, _ => false

/-- Python truthiness `bool(v)` of a JSON value. -/
def JVal.truthy : JVal → Bool
  | .null => false
  | .bool b => b
  | .num q => decide (q ≠ 0)
  | .str s => !s.isEmpty
  | .arr l => !l.isEmpty
  | .obj l => !l.isEmpty

/-- Python `d.get(k, default)`: defined on mappings only, otherwise the
attribute access raises `AttributeError`. -/
def JVal.getD (j : JVal) (k : String) (d : JVal) : Except String JVal :=
  match j with
  | .obj fs => .ok ((fs.lookup k).getD d)
  | _ => .error "AttributeError"

/-- Python `d[k]` subscription with a string key: `KeyError` when the key is
absent from a mapping, `TypeError` on non-subscriptable values. -/
def JVal.getItem (j : JVal) (k : String) : Except String JVal :=
  match j with
  | .obj fs =>
      match fs.lookup k with
      | some v => .ok v
      | none => .error "KeyError"
  | _ => .error "TypeError"

/-- Python iteration `for x in v`: lists yield their elements, mappings their
keys, strings their characters; other values raise `TypeError`. -/
def JVal.iterList : JVal → Except String (List JVal)
  | .arr l => .ok l
  | .obj fs => .ok (fs.map fun p => .str p.1)
  | .str s => .ok (s.data.map fun c => .str (String.mk [c]))
  | _ => .error "TypeError"

/-- Python `v[0]`: first element of a list (IndexError when empty), first
character of a string, `KeyError` on mappings keyed by strings, `TypeError`
otherwise. -/
def JVal.item0 : JVal → Except String JVal
  | .arr (x :: _) => .ok x
  | .arr [] => .error "IndexError"
  | .str s =>
      match s.data with
      | c :: _ => .ok (.str (String.mk [c]))
      | [] => .error "IndexError"
  | .obj _ => .error "KeyError"
  | _ => .error "TypeError"

/-! ## Resource extractors (Resource Extractor component)

One extractor per resource kind, translated from
`extract_dynamodb_tables`, `extract_s3_buckets`, `extract_lambda_functions`,
`extract_glue_jobs` and `extract_ec2_instances`.  Exceptions raised while
walking the record list propagate, exactly as in the source. -/

/-- Loop body of `extract_s3_buckets`: for each record of type
`aws_s3_bucket` appends `resource["change"]["after"].get("bucket")`. -/
def extractS3FromList : List JVal → Except String (List JVal)
  | [] => .ok []
  | r :: rest =>
    match r.getItem "type" with
    | .error e => .error e
    | .ok ty =>
      if ty.eqStr "aws_s3_bucket" then
        match r.getItem "change" with
        | .error e => .error e
        | .ok ch =>
          match ch.getItem "after" with
          | .error e => .error e
          | .ok af =>
            match af.getD "bucket" .null with
            | .error e => .error e
            | .ok bn =>
              match extractS3FromList rest with
              | .error e => .error e
              | .ok tl => .ok (bn :: tl)
      else extractS3FromList rest

/-- Model of `extract_s3_buckets(terraform_data)`. -/
def extract_s3_buckets (td : JVal) : Except String (List JVal) :=
  match td.getD "resource_changes" (.arr []) with
  | .error e => .error e
  | .ok rcs =>
    match rcs.iterList with
    | .error e => .error e
    | .ok items => extractS3FromList items

/-- Lambda function descriptor as extracted from the plan (fields keep the
raw JSON values, as the Python dict does). -/
structure LambdaRecord where
  name : JVal
  memory : JVal
  timeout : JVal
  architecture : JVal

/-- Loop body of `extract_lambda_functions`: defaults are 128 (memory_size),
3 (timeout) and `["x86_64"][0]` (architectures). -/
def extractLambdaFromList : List JVal → Except String (List LambdaRecord)
  | [] => .ok []
  | r :: rest =>
    match r.getItem "type" with
    | .error e => .error e
    | .ok ty =>
      if ty.eqStr "aws_lambda_function" then
        match r.getItem "change" with
        | .error e => .error e
        | .ok ch =>
          match ch.getItem "after" with
          | .error e => .error e
          | .ok af =>
            match af.getD "memory_size" (.num 128) with
            | .error e => .error e
            | .ok mem =>
              match af.getD "timeout" (.num 3) with
              | .error e => .error e
              | .ok tmo =>
                match af.getD "architectures" (.arr [.str "x86_64"]) with
                | .error e => .error e
                | .ok archs =>
                  match archs.item0 with
                  | .error e => .error e
                  | .ok arch =>
                    match af.getD "name" .null with
                    | .error e => .error e
                    | .ok nm =>
                      match extractLambdaFromList rest with
                      | .error e => .error e
                      | .ok tl => .ok (⟨nm, mem, tmo, arch⟩ :: tl)
      else extractLambdaFromList rest

/-- Model of `extract_lambda_functions(terraform_data)`. -/
def extract_lambda_functions (td : JVal) : Except String (List LambdaRecord) :=
  match td.getD "resource_changes" (.arr []) with
  | .error e => .error e
  | .ok rcs =>
    match rcs.iterList with
    | .error e => .error e
    | .ok items => extractLambdaFromList items

/-- DynamoDB table descriptor as extracted from the plan. -/
structure DynRecord where
  billing_mode : JVal
  read_capacity : JVal
  write_capacity : JVal

/-- Loop body of `extract_dynamodb_tables`: note this extractor reads
`change`/`after` with `.get` and empty-dict defaults, so it tolerates
records that lack them. -/
def extractDynFromList : List JVal → Except String (List DynRecord)
  | [] => .ok []
  | r :: rest =>
    match r.getItem "type" with
    | .error e => .error e
    | .ok ty =>
      if ty.eqStr "aws_dynamodb_table" then
        match r.getD "change" (.obj []) with
        | .error e => .error e
        | .ok ch =>
          match ch.getD "after" (.obj []) with
          | .error e => .error e
          | .ok af =>
            match af.getD "billing_mode" (.str "PROVISIONED") with
            | .error e => .error e
            | .ok bm =>
              match af.getD "read_capacity" (.num 0) with
              | .error e => .error e
              | .ok rc =>
                match af.getD "write_capacity" (.num 0) with
                | .error e => .error e
                | .ok wc =>
                  match extractDynFromList rest with
                  | .error e => .error e
                  | .ok tl => .ok (⟨bm, rc, wc⟩ :: tl)
      else extractDynFromList rest

/-- Model of `extract_dynamodb_tables(terraform_data)`. -/
def extract_dynamodb_tables (td : JVal) : Except String (List DynRecord) :=
  match td.getD "resource_changes" (.arr []) with
  | .error e => .error e
  | .ok rcs =>
    match rcs.iterList with
    | .error e => .error e
    | .ok items => extractDynFromList items

/-- Glue job descriptor as extracted from the plan. -/
structure GlueRecord where
  name : JVal
  worker_type : JVal
  num_workers : JVal

/-- Loop body of `extract_glue_jobs`: defaults are "Standard" (worker_type),
10 (number_of_workers) and "Unnamed" (name). -/
def extractGlueFromList : List JVal → Except String (List GlueRecord)
  | [] => .ok []
  | r :: rest =>
    match r.getItem "type" with
    | .error e => .error e
    | .ok ty =>
      if ty.eqStr "aws_glue_job" then
        match r.getItem "change" with
        | .error e => .error e
        | .ok ch =>
          match ch.getItem "after" with
          | .error e => .error e
          | .ok af =>
            match af.getD "worker_type" (.str "Standard") with
            | .error e => .error e
            | .ok wt =>
              match af.getD "number_of_workers" (.num 10) with
              | .error e => .error e
              | .ok nw =>
                match af.getD "name" (.str "Unnamed") with
                | .error e => .error e
                | .ok nm =>
                  match extractGlueFromList rest with
                  | .error e => .error e
                  | .ok tl => .ok (⟨nm, wt, nw⟩ :: tl)
      else extractGlueFromList rest

/-- Model of `extract_glue_jobs(terraform_data)`. -/
def extract_glue_jobs (td : JVal) : Except String (List GlueRecord) :=
  match td.getD "resource_changes" (.arr []) with
  | .error e => .error e
  | .ok rcs =>
    match rcs.iterList with
    | .error e => .error e
    | .ok items => extractGlueFromList items

/-- Loop body of `extract_ec2_instances`: pairs `(instance_type, spot)` are
appended only when `instance_type` is truthy. -/
def extractEc2FromList : List JVal → Except String (List (JVal × JVal))
  | [] => .ok []
  | r :: rest =>
    match r.getItem "type" with
    | .error e => .error e
    | .ok ty =>
      if ty.eqStr "aws_instance" then
        match r.getItem "change" with
        | .error e => .error e
        | .ok ch =>
          match ch.getItem "after" with
          | .error e => .error e
          | .ok af =>
            match af.getD "instance_type" .null with
            | .error e => .error e
            | .ok it =>
              match af.getD "spot_instance" .null with
              | .error e => .error e
              | .ok sp =>
                match extractEc2FromList rest with
                | .error e => .error e
                | .ok tl => .ok (if it.truthy then (it, sp) :: tl else tl)
      else extractEc2FromList rest

/-- Model of `extract_ec2_instances(terraform_data)`. -/
def extract_ec2_instances (td : JVal) : Except String (List (JVal × JVal)) :=
  match td.getD "resource_changes" (.arr []) with
  | .error e => .error e
  | .ok rcs =>
    match rcs.iterList with
    | .error e => .error e
    | .ok items => extractEc2FromList items

/-- Well-formedness of the `after` mapping of a record: it is a mapping and,
when present, its `architectures` value is a nonempty list. -/
def wfAfter (af : JVal) : Bool :=
  match af with
  | .obj fs =>
      match fs.lookup "architectures" with
      | some (.arr (_ :: _)) => true
      | some _ => false
      | none => true
  | _ => false

/-- Well-formedness of one resource-change record: a mapping carrying a
string `type` tag and a `change` mapping with a well-formed `after`
mapping. -/
def wfRecord (r : JVal) : Bool :=
  match r with
  | .obj fs =>
      (match fs.lookup "type" with
       | some (.str _) => true
       | _ => false) &&
      (match fs.lookup "change" with
       | some (.obj cfs) =>
           (match cfs.lookup "after" with
            | some af => wfAfter af
            | none => false)
       | _ => false)
  | _ => false

/-- Well-formedness of a plan document: a mapping whose resource-change
collection, when present, is a list of well-formed records. -/
def wfPlan (td : JVal) : Bool :=
  match td with
  | .obj fs =>
      match fs.lookup "resource_changes" with
      | some (.arr rs) => rs.all wfRecord
      | some _ => false
      | none => true
  | _ => false

/-! ## DynamoDB cost model (dynamodb.py) -/

/-- Uppercasing as in Python `str.upper()` (`billing_mode.upper()`). -/
def strToUpper (s : String) : String := String.mk (s.data.map Char.toUpper)

/-- Typed DynamoDB table descriptor (post-extraction). -/
structure DTable where
  billing_mode : String
  read_capacity : ℚ
  write_capacity : ℚ

/-- DynamoDB unit prices fetched once per invocation. -/
structure DynPrices where
  read_prov : ℚ
  write_prov : ℚ
  storage : ℚ
  read_ondemand : ℚ
  write_ondemand : ℚ

/-- DynamoDB usage assumptions (user defaults merged with parameters). -/
structure DynDefaults where
  reads : ℚ
  writes : ℚ
  storage : ℚ

/-- Result dictionary of `calculate_table_cost`. -/
structure TableCost where
  mode : String
  read : ℚ
  write : ℚ
  storage : ℚ
  cost_read : ℚ
  cost_write : ℚ
  cost_storage : ℚ

def HOURS_PER_MONTH : ℚ := 720
def FREE_TIER_READ_CAPACITY : ℚ := 25
def FREE_TIER_WRITE_CAPACITY : ℚ := 25
def FREE_TIER_STORAGE_GB : ℚ := 25

/-- Model of `calculate_table_cost(table, prices, user_defaults)`. -/
def calculate_table_cost (table : DTable) (prices : DynPrices) (ud : DynDefaults) : TableCost :=
  let billing := strToUpper table.billing_mode
  let storage := ud.storage
  let storage_cost := pyRound (storage * prices.storage) 3
  let read := if billing = "PROVISIONED" then table.read_capacity else ud.reads
  let write := if billing = "PROVISIONED" then table.write_capacity else ud.writes
  let cost_read := pyRound (read * (if billing = "PROVISIONED" then HOURS_PER_MONTH else 1) *
    (if billing = "PROVISIONED" then prices.read_prov else prices.read_ondemand)) 3
  let cost_write := pyRound (write * (if billing = "PROVISIONED" then HOURS_PER_MONTH else 1) *
    (if billing = "PROVISIONED" then prices.write_prov else prices.write_ondemand)) 3
  ⟨billing, read, write, storage, cost_read, cost_write, storage_cost⟩

/-- Result of `apply_free_tier`. -/
structure TierResult where
  billable_read : ℚ
  billable_write : ℚ
  billable_storage : ℚ
  discount : ℚ

/-- Model of `apply_free_tier(total_read, total_write, total_storage, prices)`. -/
def apply_free_tier (total_read total_write total_storage : ℚ) (prices : DynPrices) : TierResult :=
  let billable_read := max (total_read - FREE_TIER_READ_CAPACITY) 0
  let billable_write := max (total_write - FREE_TIER_WRITE_CAPACITY) 0
  let billable_storage := max (total_storage - FREE_TIER_STORAGE_GB) 0
  let discount :=
    pyRound ((total_read - billable_read) * HOURS_PER_MONTH * prices.read_prov) 3 +
    pyRound ((total_write - billable_write) * HOURS_PER_MONTH * prices.write_prov) 3 +
    pyRound ((total_storage - billable_storage) * prices.storage) 3
  ⟨billable_read, billable_write, billable_storage, discount⟩

/-- Result of `recommend_billing_mode`. -/
structure BillingRec where
  estimated_cost_provisioned : ℚ
  estimated_cost_on_demand : ℚ
  recommendation : String

/-- Model of `recommend_billing_mode(reads, writes, prices)`. -/
def recommend_billing_mode (reads writes : ℚ) (prices : DynPrices) : BillingRec :=
  let seconds_per_month : ℚ := 30 * 24 * 60 * 60
  let provisioned_read_units : ℤ := ⌈reads / seconds_per_month⌉
  let provisioned_write_units : ℤ := ⌈writes / seconds_per_month⌉
  let cost_provisioned :=
    (provisioned_read_units : ℚ) * HOURS_PER_MONTH * prices.read_prov +
    (provisioned_write_units : ℚ) * HOURS_PER_MONTH * prices.write_prov
  let cost_on_demand := reads * prices.read_ondemand + writes * prices.write_ondemand
  let recommendation := if cost_on_demand < cost_provisioned then "PAY_PER_REQUEST" else "PROVISIONED"
  ⟨pyRound cost_provisioned 3, pyRound cost_on_demand 3, recommendation⟩

/-- Per-table row of `calculate_dynamodb_table_costs` (the "skipped" branch
of the source is dead code: `calculate_table_cost` never returns `None`). -/
structure DynRow where
  mode : String
  read : ℚ
  write : ℚ
  storage : ℚ
  cost_read : ℚ
  cost_write : ℚ
  cost_storage : ℚ
  subtotal : ℚ

/-- Model of `calculate_dynamodb_table_costs(tables, prices, user_defaults)`:
returns the per-table rows and the running aggregates
(provisioned reads, provisioned writes, storage, total cost). -/
def calculate_dynamodb_table_costs (tables : List DTable) (prices : DynPrices) (ud : DynDefaults) :
    List DynRow × ℚ × ℚ × ℚ × ℚ :=
  match tables with
  | [] => ([], 0, 0, 0, 0)
  | t :: ts =>
    let r := calculate_table_cost t prices ud
    let subtotal := r.cost_read + r.cost_write + r.cost_storage
    let rest := calculate_dynamodb_table_costs ts prices ud
    (⟨r.mode, r.read, r.write, r.storage, r.cost_read, r.cost_write, r.cost_storage,
        pyRound subtotal 3⟩ :: rest.1,
     (if r.mode = "PROVISIONED" then r.read else 0) + rest.2.1,
     (if r.mode = "PROVISIONED" then r.write else 0) + rest.2.2.1,
     r.storage + rest.2.2.2.1,
     subtotal + rest.2.2.2.2)

/-! ## S3 cost model (s3.py) -/

def FREE_TIER_S3_GB : ℚ := 5
def FREE_TIER_PUT_REQUESTS : ℚ := 10000
def FREE_TIER_GET_REQUESTS : ℚ := 100000

/-- Per-bucket row of `calculate_s3_bucket_costs`. -/
structure S3Row where
  bucket : String
  storage_cost : ℚ
  put_cost : ℚ
  get_cost : ℚ
  storage_class : String
  transition_days : Option ℚ

/-- Per-bucket body of the `calculate_s3_bucket_costs` loop.  `lifecycle`
models `extract_storage_class_from_lifecycle` (transition class and day
threshold for the bucket), `transPrice` the storage-class price lookup for
the transition target.  Mirrors the Python truthiness test
`if transition_class and transition_days < 30`: a falsy class means no
transition; a truthy class with `transition_days = None` raises `TypeError`
at the comparison, and a missing transition-class price raises `TypeError`
in the arithmetic. -/
def s3BucketRow (lifecycle : String → Option String × Option ℚ)
    (transPrice : String → Option ℚ)
    (storage put_requests get_requests stdPrice put_price get_price : ℚ)
    (b : String) : Except String S3Row :=
  let tc := (lifecycle b).1
  let td := (lifecycle b).2
  let put_cost := pyRound (put_requests / 1000 * put_price) 3
  let get_cost := pyRound (get_requests / 1000 * get_price) 3
  match tc with
  | none => .ok ⟨b, pyRound (storage * stdPrice) 3, put_cost, get_cost, "STANDARD", none⟩
  | some c =>
    if c = "" then .ok ⟨b, pyRound (storage * stdPrice) 3, put_cost, get_cost, "STANDARD", none⟩
    else
      match td with
      | none => .error "TypeError"
      | some d =>
        if d < 30 then
          match transPrice c with
          | none => .error "TypeError"
          | some tp =>
            .ok ⟨b, pyRound (pyRound (storage / 30 * d * stdPrice) 3 +
                    pyRound (storage / 30 * (30 - d) * tp) 3) 3,
                 put_cost, get_cost, c, some d⟩
        else
          .ok ⟨b, pyRound (storage * stdPrice) 3, put_cost, get_cost, c, some d⟩

/-- Model of `calculate_s3_bucket_costs(buckets, terraform_data,
user_defaults, region)`: rows plus total storage, PUT and GET costs. -/
def calculate_s3_bucket_costs (lifecycle : String → Option String × Option ℚ)
    (transPrice : String → Option ℚ)
    (storage put_requests get_requests stdPrice put_price get_price : ℚ) :
    List String → Except String (List S3Row × ℚ × ℚ × ℚ)
  | [] => .ok ([], 0, 0, 0)
  | b :: bs =>
    match s3BucketRow lifecycle transPrice storage put_requests get_requests
        stdPrice put_price get_price b with
    | .error e => .error e
    | .ok row =>
      match calculate_s3_bucket_costs lifecycle transPrice storage put_requests get_requests
          stdPrice put_price get_price bs with
      | .error e => .error e
      | .ok rest =>
        .ok (row :: rest.1, row.storage_cost + rest.2.1,
             row.put_cost + rest.2.2.1, row.get_cost + rest.2.2.2)

/-- Summary numbers computed by `summarize_s3_totals` (the printed values). -/
structure S3Summary where
  billable_storage : ℚ
  billable_put : ℚ
  billable_get : ℚ
  cost_storage : ℚ
  cost_put : ℚ
  cost_get : ℚ
  total : ℚ

/-- Model of `summarize_s3_totals(no_buckets, user_defaults,
total_storage_cost, total_put_cost, total_get_cost, region)`. -/
def summarize_s3_totals (no_buckets ud_storage ud_put ud_get : ℚ)
    (total_storage_cost total_put_cost total_get_cost : ℚ)
    (stdPrice put_price get_price : ℚ) : S3Summary :=
  let storage := ud_storage * no_buckets
  let put_requests := ud_put * no_buckets
  let get_requests := ud_get * no_buckets
  let billable_storage := max (storage - FREE_TIER_S3_GB) 0
  let billable_put := max (put_requests - FREE_TIER_PUT_REQUESTS) 0
  let billable_get := max (get_requests - FREE_TIER_GET_REQUESTS) 0
  let cost_storage := pyRound (max (total_storage_cost - FREE_TIER_S3_GB * stdPrice) 0) 3
  let cost_put := pyRound (max (total_put_cost - FREE_TIER_PUT_REQUESTS / 1000 * put_price) 0) 3
  let cost_get := pyRound (max (total_get_cost - FREE_TIER_GET_REQUESTS / 1000 * get_price) 0) 3
  ⟨billable_storage, billable_put, billable_get, cost_storage, cost_put, cost_get,
   cost_storage + cost_put + cost_get⟩

/-! ## Lambda cost model (lambda_functions.py) -/

/-- Result dictionary of `estimate_lambda_cost` (cost fields and raw usage;
the identifying fields of the function are omitted as they are copied
through unchanged). -/
structure LambdaCost where
  compute_cost : ℚ
  request_cost : ℚ
  total_cost : ℚ
  raw_gb_sec : ℚ
  raw_requests : ℚ

/-- Model of `estimate_lambda_cost(lambda_func, monthly_requests,
avg_duration, region)`.  The architecture-specific prices fetched inside the
source function are passed as arguments (`get_lambda_price` is the external
pricing gateway); the source multiplies them without a `None` check, so this
model is the behaviour on available prices. -/
def estimate_lambda_cost (memory monthly_requests avg_duration : ℚ)
    (gb_sec_price request_price : ℚ) : LambdaCost :=
  let mem_gb := memory / 1024
  let total_gb_seconds := monthly_requests * mem_gb * avg_duration
  let request_cost := monthly_requests * request_price
  let compute_cost := total_gb_seconds * gb_sec_price
  let total := request_cost + compute_cost
  ⟨pyRound compute_cost 4, pyRound request_cost 4, pyRound total 4,
   total_gb_seconds, monthly_requests⟩

/-! ## Glue cost model (glue.py) -/

/-- Typed Glue job descriptor (post-extraction). -/
structure GlueJob where
  name : String
  worker_type : String
  num_workers : ℚ

/-- The `DPU_PER_WORKER` table with its `.get(worker_type, 1)` default. -/
def DPU_PER_WORKER (w : String) : ℚ :=
  if w = "Standard" then 1
  else if w = "G.025X" then 1/4
  else if w = "G.1X" then 1
  else if w = "G.2X" then 2
  else if w = "G.4X" then 4
  else if w = "G.8X" then 8
  else if w = "Z.2X" then 8
  else 1

/-- Model of `calculate_glue_cost(worker_type, num_workers, monthly_hours,
region)`.  `priceOf` models `get_glue_price`; `if not price_per_dpu_hr`
makes both a missing price and a price of `0` yield `None`. -/
def calculate_glue_cost (priceOf : String → Option ℚ) (worker_type : String)
    (num_workers monthly_hours : ℚ) : Option ℚ :=
  match priceOf worker_type with
  | none => none
  | some p =>
    if p = 0 then none
    else some (pyRound (num_workers * DPU_PER_WORKER worker_type * monthly_hours * p) 2)

/-- The ordered worker-type tier list of `suggest_glue_alternatives`. -/
def glue_types : List String := ["G.025X", "Standard", "G.1X", "G.2X", "G.4X", "G.8X", "Z.2X"]

/-- Python `list.index` coupled with `next(...)`-style search: the position
of the first occurrence, `none` when absent. -/
def listIndexOf (x : String) : List String → Option ℕ
  | [] => none
  | y :: ys => if y = x then some 0 else (listIndexOf x ys).map (· + 1)

/-- Model of `suggest_glue_alternatives(job, region, monthly_hours)`:
`list.index` raises `ValueError` when the worker type is not a known tier;
otherwise the in-range neighbours one tier down and up are proposed,
skipping the `{Standard, G.1X}` equivalent pair. -/
def suggest_glue_alternatives (priceOf : String → Option ℚ) (worker_type : String)
    (num_workers monthly_hours : ℚ) : Except String (List (String × Option ℚ)) :=
  match listIndexOf worker_type glue_types with
  | none => .error "ValueError"
  | some i =>
    let step : ℤ → List (String × Option ℚ) := fun off =>
      let ni : ℤ := (i : ℤ) + off
      if 0 ≤ ni ∧ ni < glue_types.length then
        let nt := glue_types.getD ni.toNat ""
        if (worker_type = "Standard" ∧ nt = "G.1X") ∨ (worker_type = "G.1X" ∧ nt = "Standard") then []
        else [(nt, calculate_glue_cost priceOf nt num_workers monthly_hours)]
      else []
    .ok (step (-1) ++ step 1)

/-- Accumulation loop of `calculate_glue_job_costs`: per job the cost is
added when priced and silently skipped when `calculate_glue_cost` returns
`None`; `suggest_glue_alternatives` is invoked per job and its `ValueError`
propagates. -/
def glueJobsTotal (priceOf : String → Option ℚ) (hours : ℚ) :
    List GlueJob → Except String ℚ
  | [] => .ok 0
  | j :: js =>
    let c := calculate_glue_cost priceOf j.worker_type j.num_workers hours
    match suggest_glue_alternatives priceOf j.worker_type j.num_workers hours with
    | .error e => .error e
    | .ok _ =>
      match glueJobsTotal priceOf hours js with
      | .error e => .error e
      | .ok rest => .ok ((match c with | some v => v | none => 0) + rest)

/-- Model of `calculate_glue_job_costs(jobs, hours, region)`: the aggregate
total it prints unconditionally at the end
(`round(total_glue_cost, 3)`). -/
def calculate_glue_job_costs (priceOf : String → Option ℚ) (jobs : List GlueJob)
    (hours : ℚ) : Except String ℚ :=
  match glueJobsTotal priceOf hours jobs with
  | .error e => .error e
  | .ok t => .ok (pyRound t 3)

/-! ## EC2 cost model and alternative recommender (ec2.py) -/

/-- Catalog metadata per instance type, from `fetch_ec2_instance_types`
(the memory is stored as "N GB" and parsed back to the integer N by the
sort key, so it is modelled as the integer directly). -/
structure CatInfo where
  vCPU : ℕ
  memoryGB : ℕ

/-- Candidate entry built by `suggest_alternatives` for a priced same-family
instance type. -/
structure Candidate where
  name : String
  vCPU : ℕ
  memoryGB : ℕ
  hourly : ℚ
  monthly : ℚ

/-- Python `instance_type.split('.')[0]`: the characters before the first
dot. -/
def famPfxOf (s : String) : String := String.mk (s.data.takeWhile (fun c => c ≠ '.'))

/-- Python `name.startswith(family_prefix)`. -/
def strStartsWith (s pre : String) : Bool := pre.data.isPrefixOf s.data

/-- Candidate construction for one catalog entry: kept only when the name
has the family prefix and `get_ec2_on_demand_price` yields a price that is
truthy and positive (`if price and price > 0`). -/
def mkCandidate (pf : String → Option ℚ) (hours : ℚ) (famPfx nm : String)
    (info : CatInfo) : Option Candidate :=
  if strStartsWith nm famPfx then
    match pf nm with
    | some p =>
      if 0 < p then some ⟨nm, info.vCPU, info.memoryGB, pyRound p 3, pyRound (p * hours) 3⟩
      else none
    | none => none
  else none

/-- The candidate list of `suggest_alternatives`, in catalog order. -/
def candidatesFor (pf : String → Option ℚ) (hours : ℚ) (famPfx : String)
    (catalog : List (String × CatInfo)) : List Candidate :=
  catalog.filterMap fun p => mkCandidate pf hours famPfx p.1 p.2

/-- Sort key order of `candidates.sort(key=lambda x: (x["hourly"],
x["vCPU"], int(x["memory"].split()[0])))`: lexicographic on
(hourly, vCPU, memory). -/
def candLE (a b : Candidate) : Prop :=
  a.hourly < b.hourly ∨
    (a.hourly = b.hourly ∧ (a.vCPU < b.vCPU ∨ (a.vCPU = b.vCPU ∧ a.memoryGB ≤ b.memoryGB)))

instance : DecidableRel candLE := fun a b => by
  unfold candLE
  infer_instance

instance : IsTotal Candidate candLE :=
  ⟨by
    intro a b
    unfold candLE
    rcases lt_trichotomy a.hourly b.hourly with h | h | h
    · exact Or.inl (Or.inl h)
    · rcases lt_trichotomy a.vCPU b.vCPU with h2 | h2 | h2
      · exact Or.inl (Or.inr ⟨h, Or.inl h2⟩)
      · rcases le_total a.memoryGB b.memoryGB with h3 | h3
        · exact Or.inl (Or.inr ⟨h, Or.inr ⟨h2, h3⟩⟩)
        · exact Or.inr (Or.inr ⟨h.symm, Or.inr ⟨h2.symm, h3⟩⟩)
      · exact Or.inr (Or.inr ⟨h.symm, Or.inl h2⟩)
    · exact Or.inr (Or.inl h)⟩

instance : IsTrans Candidate candLE :=
  ⟨by
    intro a b c hab hbc
    unfold candLE at hab hbc ⊢
    rcases hab with h1 | ⟨e1, h1⟩
    · rcases hbc with h2 | ⟨e2, _⟩
      · exact Or.inl (h1.trans h2)
      · exact Or.inl (e2 ▸ h1)
    · rcases hbc with h2 | ⟨e2, h2⟩
      · exact Or.inl (e1 ▸ h2)
      · refine Or.inr ⟨e1.trans e2, ?_⟩
        rcases h1 with h1 | ⟨f1, h1⟩
        · rcases h2 with h2 | ⟨f2, _⟩
          · exact Or.inl (h1.trans h2)
          · exact Or.inl (f2 ▸ h1)
        · rcases h2 with h2 | ⟨f2, h2⟩
          · exact Or.inl (f1 ▸ h2)
          · exact Or.inr ⟨f1.trans f2, h1.trans h2⟩⟩

/-- The sorted candidate list.  Python's `list.sort` is stable; a stable
sort w.r.t. a total preorder is unique, so the stable insertion sort of
Mathlib computes the same list. -/
def sortedCandidates (pf : String → Option ℚ) (hours : ℚ) (famPfx : String)
    (catalog : List (String × CatInfo)) : List Candidate :=
  List.insertionSort candLE (candidatesFor pf hours famPfx catalog)

/-- Position of the current instance in the sorted candidate list:
`next((i for i, c in enumerate(candidates) if c["name"] == instance_type),
None)`. -/
def indexOfName (nm : String) : List Candidate → Option ℕ
  | [] => none
  | c :: cs => if c.name = nm then some 0 else (indexOfName nm cs).map (· + 1)

/-- The suggestion window: `candidates[max(0, index-2):index] +
candidates[index+1:index+3]` (ℕ subtraction is the `max(0, ·)`). -/
def suggestWindow (cs : List Candidate) (i : ℕ) : List Candidate :=
  (cs.take i).drop (i - 2) ++ (cs.drop (i + 1)).take 2

/-- Outcome of `suggest_alternatives`: the early informational return when
the instance type is not in the catalog, the `TypeError` crash when the
located index is `None`, or the suggestion list. -/
inductive SuggestOut where
  | noRec
  | crash
  | suggestions (l : List Candidate)

/-- Model of `suggest_alternatives(instance_type, hours_per_month, region,
instance_categories)`.  `pf` models `get_ec2_on_demand_price`. -/
def suggest_alternatives (instance_type : String) (hours : ℚ)
    (pf : String → Option ℚ) (catalog : List (String × CatInfo)) : SuggestOut :=
  match catalog.lookup instance_type with
  | none => .noRec
  | some _ =>
    let cs := sortedCandidates pf hours (famPfxOf instance_type) catalog
    match indexOfName instance_type cs with
    | none => .crash
    | some i => .suggestions (suggestWindow cs i)

/-- Per-price monthly cost of one instance in `calculate_ec2_costs`.  A
missing or zero price is reassigned to the string "N/A", which is truthy, so
the subsequent `round("N/A" * hours, 3)` raises `TypeError`; an available
price whose 3-decimal rounding is `0.0` is falsy at the cost line, making
the monthly cost "N/A" (excluded from the total) without a crash. -/
def ec2_monthly_cost (p : Option ℚ) (hours : ℚ) : Except String (Option ℚ) :=
  match p with
  | none => .error "TypeError"
  | some q =>
    if q = 0 then .error "TypeError"
    else
      if pyRound q 3 = 0 then .ok none
      else .ok (some (pyRound (pyRound q 3 * hours) 3))

/-- Model of `calculate_ec2_costs(instances, hours_per_month, region,
instance_categories)`: accumulates the monthly on-demand and spot totals,
adding only costs that are floats; any `TypeError` raised at the cost lines
or inside `suggest_alternatives` propagates. -/
def calculate_ec2_costs (odPrice spPrice : String → Option ℚ) (hours : ℚ)
    (catalog : List (String × CatInfo)) : List (String × Bool) → Except String (ℚ × ℚ)
  | [] => .ok (0, 0)
  | (inst, _) :: rest =>
    match ec2_monthly_cost (odPrice inst) hours with
    | .error e => .error e
    | .ok odc =>
      match ec2_monthly_cost (spPrice inst) hours with
      | .error e => .error e
      | .ok spc =>
        match suggest_alternatives inst hours odPrice catalog with
        | .crash => .error "TypeError"
        | _ =>
          match calculate_ec2_costs odPrice spPrice hours catalog rest with
          | .error e => .error e
          | .ok t => .ok (odc.getD 0 + t.1, spc.getD 0 + t.2)

/-- Outcome of `ec2_main` for the EC2 kind: the informational empty-plan
return, the catch-all abort (error printed, no totals emitted), or the two
aggregate totals printed by `summarize_ec2_totals`. -/
inductive Ec2Outcome where
  | noInstances
  | aborted (e : String)
  | totals (od sp : ℚ)

/-- Model of the `ec2_main` pipeline after extraction: empty instance list
short-circuits; an exception inside `calculate_ec2_costs` is caught by the
catch-all handler and no totals are emitted; otherwise the rounded totals
are printed. -/
def ec2_main (odPrice spPrice : String → Option ℚ) (hours : ℚ)
    (catalog : List (String × CatInfo)) (instances : List (String × Bool)) : Ec2Outcome :=
  if instances.isEmpty then .noInstances
  else
    match calculate_ec2_costs odPrice spPrice hours catalog instances with
    | .error e => .aborted e
    | .ok t => .totals (pyRound t.1 3) (pyRound t.2 3)

/-! ## Concrete inputs used by counterexamples and witnesses -/

/-- Pricing table for the C1 counterexample: only the G.2X worker type has
an available price. -/
def pfC1 : String → Option ℚ := fun w => if w = "G.2X" then some (78/100) else none

/-- Catalog for the C10 scenario: the current t2.micro instance and one
priced same-family neighbour. -/
def catalogC10 : List (String × CatInfo) := [("t2.micro", ⟨1, 1⟩), ("t2.small", ⟨2, 2⟩)]

/-- On-demand pricing for the C10 scenario: the current instance's own
lookup yields `None`; its neighbour is priced. -/
def odC10 : String → Option ℚ := fun n => if n = "t2.small" then some (2/100) else none

/-- Spot pricing for the C10 scenario: always available. -/
def spC10 : String → Option ℚ := fun _ => some (1/100)

/-! ## Properties of the rounding model -/

theorem rhe_intCast (k : ℤ) : rhe (k : ℚ) = k := by
  unfold rhe
  norm_num

theorem rhe_floor_or (q : ℚ) : rhe q = ⌊q⌋ ∨ rhe q = ⌊q⌋ + 1 := by
  unfold rhe
  split_ifs <;> simp

theorem rhe_nonneg {q : ℚ} (h : 0 ≤ q) : 0 ≤ rhe q := by
  have hf : (0 : ℤ) ≤ ⌊q⌋ := Int.le_floor.2 (by exact_mod_cast h)
  rcases rhe_floor_or q with he | he <;> omega

theorem abs_rhe_sub (q : ℚ) : |(rhe q : ℚ) - q| ≤ 1 / 2 := by
  have hfl : (⌊q⌋ : ℚ) ≤ q := Int.floor_le q
  have hlt : q < (⌊q⌋ : ℚ) + 1 := Int.lt_floor_add_one q
  unfold rhe
  split_ifs with h1 h2 h3 <;> rw [abs_le] <;> constructor <;> push_cast <;> linarith

theorem pyRound_eq_self {x : ℚ} {n : ℕ} (k : ℤ) (h : x * 10 ^ n = k) : pyRound x n = x := by
  unfold pyRound
  rw [h, rhe_intCast, ← h]
  field_simp

theorem pyRound_mul_pow (x : ℚ) (n : ℕ) : pyRound x n * 10 ^ n = (rhe (x * 10 ^ n) : ℚ) := by
  unfold pyRound
  field_simp

theorem pyRound_nonneg {x : ℚ} (n : ℕ) (h : 0 ≤ x) : 0 ≤ pyRound x n := by
  unfold pyRound
  have h10 : (0 : ℚ) ≤ 10 ^ n := by positivity
  have : (0 : ℚ) ≤ (rhe (x * 10 ^ n) : ℚ) := by
    exact_mod_cast rhe_nonneg (mul_nonneg h h10)
  exact div_nonneg this h10

theorem abs_pyRound_sub (x : ℚ) (n : ℕ) : |pyRound x n - x| ≤ 1 / (2 * 10 ^ n) := by
  have h10 : (0 : ℚ) < 10 ^ n := by positivity
  have key : pyRound x n - x = ((rhe (x * 10 ^ n) : ℚ) - x * 10 ^ n) / 10 ^ n := by
    unfold pyRound
    field_simp
    ring
  rw [key, abs_div, abs_of_pos h10, div_le_iff₀ h10]
  have := abs_rhe_sub (x * 10 ^ n)
  calc |(rhe (x * 10 ^ n) : ℚ) - x * 10 ^ n| ≤ 1 / 2 := this
    _ = 1 / (2 * 10 ^ n) * 10 ^ n := by field_simp

theorem pyRound_add_self (x y : ℚ) (n : ℕ) :
    pyRound (pyRound x n + pyRound y n) n = pyRound x n + pyRound y n :=
  pyRound_eq_self (rhe (x * 10 ^ n) + rhe (y * 10 ^ n))
    (by push_cast; rw [add_mul, pyRound_mul_pow, pyRound_mul_pow])

theorem pyRound_add3_self (x y z : ℚ) (n : ℕ) :
    pyRound (pyRound x n + pyRound y n + pyRound z n) n =
      pyRound x n + pyRound y n + pyRound z n :=
  pyRound_eq_self (rhe (x * 10 ^ n) + rhe (y * 10 ^ n) + rhe (z * 10 ^ n))
    (by push_cast; rw [add_mul, add_mul, pyRound_mul_pow, pyRound_mul_pow, pyRound_mul_pow])

/-! ## Claim C9: provisioned DynamoDB table costs -/

/-- C9: for every DynamoDB table whose billing mode uppercases to
PROVISIONED, `calculate_table_cost` returns
cost_read = round(read_capacity × 720 × provisioned read price, 3),
cost_write = round(write_capacity × 720 × provisioned write price, 3) and
cost_storage = round(assumed storage GB × storage price, 3). -/
theorem c9_table_cost_provisioned (t : DTable) (px : DynPrices) (ud : DynDefaults)
    (h : strToUpper t.billing_mode = "PROVISIONED") :
    (calculate_table_cost t px ud).cost_read = pyRound (t.read_capacity * 720 * px.read_prov) 3 ∧
    (calculate_table_cost t px ud).cost_write = pyRound (t.write_capacity * 720 * px.write_prov) 3 ∧
    (calculate_table_cost t px ud).cost_storage = pyRound (ud.storage * px.storage) 3 := by
  simp [calculate_table_cost, h, HOURS_PER_MONTH]

/-- Witness for C9 at the spec's Example 1: read = write = 5 at
$0.00065 per unit-hour over 720 hours gives cost_read = cost_write =
$2.34. -/
theorem c9_witness :
    strToUpper (DTable.billing_mode ⟨"PROVISIONED", 5, 5⟩) = "PROVISIONED" ∧
    (calculate_table_cost ⟨"PROVISIONED", 5, 5⟩ ⟨65/100000, 65/100000, 1/4, 0, 0⟩
      ⟨0, 0, 10⟩).cost_read = 117/50 ∧
    (calculate_table_cost ⟨"PROVISIONED", 5, 5⟩ ⟨65/100000, 65/100000, 1/4, 0, 0⟩
      ⟨0, 0, 10⟩).cost_write = 117/50 := by
  refine ⟨rfl, ?_, ?_⟩
  · rw [(c9_table_cost_provisioned ⟨"PROVISIONED", 5, 5⟩ ⟨65/100000, 65/100000, 1/4, 0, 0⟩
      ⟨0, 0, 10⟩ rfl).1]
    norm_num [pyRound, rhe]
  · rw [(c9_table_cost_provisioned ⟨"PROVISIONED", 5, 5⟩ ⟨65/100000, 65/100000, 1/4, 0, 0⟩
      ⟨0, 0, 10⟩ rfl).2.1]
    norm_num [pyRound, rhe]

/-! ## Claim C8: billing-mode recommendation -/

/-- C8: `recommend_billing_mode` converts monthly request counts to
provisioned units with ceil(requests / 2,592,000), prices both modes
(units × 720 × provisioned price vs requests × on-demand price) and
recommends PAY_PER_REQUEST exactly when the on-demand cost is strictly
lower; equal costs recommend PROVISIONED. -/
theorem c8_recommend_billing_mode (reads writes : ℚ) (px : DynPrices) :
    (recommend_billing_mode reads writes px).estimated_cost_provisioned =
      pyRound ((⌈reads / 2592000⌉ : ℚ) * 720 * px.read_prov +
        (⌈writes / 2592000⌉ : ℚ) * 720 * px.write_prov) 3 ∧
    (recommend_billing_mode reads writes px).estimated_cost_on_demand =
      pyRound (reads * px.read_ondemand + writes * px.write_ondemand) 3 ∧
    ((recommend_billing_mode reads writes px).recommendation = "PAY_PER_REQUEST" ↔
      reads * px.read_ondemand + writes * px.write_ondemand <
        (⌈reads / 2592000⌉ : ℚ) * 720 * px.read_prov +
        (⌈writes / 2592000⌉ : ℚ) * 720 * px.write_prov) ∧
    (reads * px.read_ondemand + writes * px.write_ondemand =
        (⌈reads / 2592000⌉ : ℚ) * 720 * px.read_prov +
        (⌈writes / 2592000⌉ : ℚ) * 720 * px.write_prov →
      (recommend_billing_mode reads writes px).recommendation = "PROVISIONED") := by
  have hsec : (30 * 24 * 60 * 60 : ℚ) = 2592000 := by norm_num
  unfold recommend_billing_mode HOURS_PER_MONTH
  rw [hsec]
  dsimp only
  refine ⟨rfl, rfl, ?_, ?_⟩
  · split_ifs with h
    · simp [h]
    · simp [h]
  · intro heq
    split_ifs with h
    · exact absurd heq (ne_of_lt h)
    · rfl

/-! ## Claim C5: S3 lifecycle pro-rating boundary -/

/-- C5: per bucket, a lifecycle transition with day-threshold strictly below
30 pro-rates the storage cost as round(GB/30 × days × original price, 3) +
round(GB/30 × (30−days) × target price, 3); a threshold of exactly 30 (the
comparison `days < 30` fails) or no transition charges
round(GB × original price, 3) for the full month.  The last conjunct ties
the per-bucket body to `calculate_s3_bucket_costs` on a bucket list. -/
theorem c5_s3_lifecycle_prorating (lifecycle : String → Option String × Option ℚ)
    (transPrice : String → Option ℚ) (storage pr gr stdP putP getP : ℚ) (b : String) :
    (∀ c d tp, (lifecycle b).1 = some c → c ≠ "" → (lifecycle b).2 = some d → d < 30 →
      transPrice c = some tp →
      s3BucketRow lifecycle transPrice storage pr gr stdP putP getP b =
        .ok ⟨b, pyRound (storage / 30 * d * stdP) 3 + pyRound (storage / 30 * (30 - d) * tp) 3,
             pyRound (pr / 1000 * putP) 3, pyRound (gr / 1000 * getP) 3, c, some d⟩) ∧
    (∀ c d, (lifecycle b).1 = some c → c ≠ "" → (lifecycle b).2 = some d → ¬(d < 30) →
      s3BucketRow lifecycle transPrice storage pr gr stdP putP getP b =
        .ok ⟨b, pyRound (storage * stdP) 3,
             pyRound (pr / 1000 * putP) 3, pyRound (gr / 1000 * getP) 3, c, some d⟩) ∧
    ((lifecycle b).1 = none →
      s3BucketRow lifecycle transPrice storage pr gr stdP putP getP b =
        .ok ⟨b, pyRound (storage * stdP) 3,
             pyRound (pr / 1000 * putP) 3, pyRound (gr / 1000 * getP) 3, "STANDARD", none⟩) ∧
    (∀ bs row rest, s3BucketRow lifecycle transPrice storage pr gr stdP putP getP b = .ok row →
      calculate_s3_bucket_costs lifecycle transPrice storage pr gr stdP putP getP bs =
        .ok rest →
      calculate_s3_bucket_costs lifecycle transPrice storage pr gr stdP putP getP (b :: bs) =
        .ok (row :: rest.1, row.storage_cost + rest.2.1,
             row.put_cost + rest.2.2.1, row.get_cost + rest.2.2.2)) := by
  refine ⟨?_, ?_, ?_, ?_⟩
  · intro c d tp hc hcne hd hlt htp
    unfold s3BucketRow
    rw [hc, hd]
    dsimp only
    rw [if_neg hcne, if_pos hlt, htp]
    dsimp only
    rw [pyRound_add_self]
  · intro c d hc hcne hd hge
    unfold s3BucketRow
    rw [hc, hd]
    dsimp only
    rw [if_neg hcne, if_neg hge]
  · intro hc
    unfold s3BucketRow
    rw [hc]
  · intro bs row rest hrow hrest
    unfold calculate_s3_bucket_costs
    rw [hrow, hrest]

/-- Witness for C5: the spec's Example 3 (100 GB, transition at day 10,
$0.023 standard, $0.0125 target; the pro-rated cost evaluates to $1.60),
the day-30 boundary and the no-transition case, on a concrete lifecycle
table. -/
theorem c5_witness :
    s3BucketRow
        (fun b => if b = "b1" then (some "GLACIER", some 10)
                  else if b = "b2" then (some "GLACIER", some 30) else (none, none))
        (fun _ => some (125/10000)) 100 1000 10000 (23/1000) (5/1000) (4/10000) "b1" =
      .ok ⟨"b1", pyRound (100 / 30 * 10 * (23/1000)) 3 +
             pyRound (100 / 30 * (30 - 10) * (125/10000)) 3,
           pyRound (1000 / 1000 * (5/1000)) 3, pyRound (10000 / 1000 * (4/10000)) 3,
           "GLACIER", some 10⟩ ∧
    pyRound (100 / 30 * 10 * (23/1000)) 3 + pyRound (100 / 30 * (30 - 10) * (125/10000)) 3 =
      8/5 ∧
    s3BucketRow
        (fun b => if b = "b1" then (some "GLACIER", some 10)
                  else if b = "b2" then (some "GLACIER", some 30) else (none, none))
        (fun _ => some (125/10000)) 100 1000 10000 (23/1000) (5/1000) (4/10000) "b2" =
      .ok ⟨"b2", pyRound (100 * (23/1000)) 3,
           pyRound (1000 / 1000 * (5/1000)) 3, pyRound (10000 / 1000 * (4/10000)) 3,
           "GLACIER", some 30⟩ ∧
    s3BucketRow
        (fun b => if b = "b1" then (some "GLACIER", some 10)
                  else if b = "b2" then (some "GLACIER", some 30) else (none, none))
        (fun _ => some (125/10000)) 100 1000 10000 (23/1000) (5/1000) (4/10000) "b3" =
      .ok ⟨"b3", pyRound (100 * (23/1000)) 3,
           pyRound (1000 / 1000 * (5/1000)) 3, pyRound (10000 / 1000 * (4/10000)) 3,
           "STANDARD", none⟩ := by
  refine ⟨?_, ?_, ?_, ?_⟩
  · exact (c5_s3_lifecycle_prorating _ _ 100 1000 10000 (23/1000) (5/1000) (4/10000) "b1").1
      "GLACIER" 10 (125/10000) rfl (by simp) rfl (by norm_num) rfl
  · norm_num [pyRound, rhe]
  · exact (c5_s3_lifecycle_prorating _ _ 100 1000 10000 (23/1000) (5/1000) (4/10000) "b2").2.1
      "GLACIER" 30 rfl (by simp) rfl (by norm_num)
  · exact (c5_s3_lifecycle_prorating _ _ 100 1000 10000 (23/1000) (5/1000) (4/10000) "b3").2.2.1
      rfl

/-! ## Claim C6: component non-negativity and subtotal consistency -/

/-- Helper: per-table component properties of `calculate_table_cost` under
non-negative capacities, defaults and prices: each component is a
non-negative 3-decimal value and re-rounding their sum is the identity. -/
theorem table_cost_props (t : DTable) (px : DynPrices) (ud : DynDefaults)
    (h1 : 0 ≤ px.read_prov) (h2 : 0 ≤ px.write_prov) (h3 : 0 ≤ px.storage)
    (h4 : 0 ≤ px.read_ondemand) (h5 : 0 ≤ px.write_ondemand)
    (h6 : 0 ≤ ud.reads) (h7 : 0 ≤ ud.writes) (h8 : 0 ≤ ud.storage)
    (h9 : 0 ≤ t.read_capacity) (h10 : 0 ≤ t.write_capacity) :
    0 ≤ (calculate_table_cost t px ud).cost_read ∧
    0 ≤ (calculate_table_cost t px ud).cost_write ∧
    0 ≤ (calculate_table_cost t px ud).cost_storage ∧
    pyRound ((calculate_table_cost t px ud).cost_read +
        (calculate_table_cost t px ud).cost_write +
        (calculate_table_cost t px ud).cost_storage) 3 =
      (calculate_table_cost t px ud).cost_read +
        (calculate_table_cost t px ud).cost_write +
        (calculate_table_cost t px ud).cost_storage := by
  unfold calculate_table_cost HOURS_PER_MONTH
  dsimp only
  refine ⟨?_, ?_, ?_, pyRound_add3_self _ _ _ 3⟩
  · apply pyRound_nonneg
    split_ifs
    · exact mul_nonneg (mul_nonneg h9 (by norm_num)) h1
    · exact mul_nonneg (mul_nonneg h6 (by norm_num)) h4
  · apply pyRound_nonneg
    split_ifs
    · exact mul_nonneg (mul_nonneg h10 (by norm_num)) h2
    · exact mul_nonneg (mul_nonneg h7 (by norm_num)) h5
  · exact pyRound_nonneg _ (mul_nonneg h8 h3)

/-- C6: for non-negative usage assumptions and unit prices, every cost
component of `calculate_dynamodb_table_costs` and `estimate_lambda_cost` is
≥ 0, and each reported subtotal (resp. total) differs from the sum of its
reported components by at most 0.001 (for DynamoDB the difference is
exactly 0, since the components are 3-decimal values). -/
theorem c6_nonneg_components_subtotal :
    (∀ (tables : List DTable) (px : DynPrices) (ud : DynDefaults),
      0 ≤ px.read_prov → 0 ≤ px.write_prov → 0 ≤ px.storage →
      0 ≤ px.read_ondemand → 0 ≤ px.write_ondemand →
      0 ≤ ud.reads → 0 ≤ ud.writes → 0 ≤ ud.storage →
      (∀ t ∈ tables, 0 ≤ t.read_capacity ∧ 0 ≤ t.write_capacity) →
      ∀ row ∈ (calculate_dynamodb_table_costs tables px ud).1,
        0 ≤ row.cost_read ∧ 0 ≤ row.cost_write ∧ 0 ≤ row.cost_storage ∧
        |row.subtotal - (row.cost_read + row.cost_write + row.cost_storage)| ≤ 1/1000) ∧
    (∀ memory reqs dur gp rp : ℚ, 0 ≤ memory → 0 ≤ reqs → 0 ≤ dur → 0 ≤ gp → 0 ≤ rp →
      0 ≤ (estimate_lambda_cost memory reqs dur gp rp).compute_cost ∧
      0 ≤ (estimate_lambda_cost memory reqs dur gp rp).request_cost ∧
      |(estimate_lambda_cost memory reqs dur gp rp).total_cost -
        ((estimate_lambda_cost memory reqs dur gp rp).compute_cost +
         (estimate_lambda_cost memory reqs dur gp rp).request_cost)| ≤ 1/1000) := by
  constructor
  · intro tables px ud h1 h2 h3 h4 h5 h6 h7 h8 htab
    induction tables with
    | nil =>
      intro row hrow
      simp [calculate_dynamodb_table_costs] at hrow
    | cons t ts ih =>
      intro row hrow
      unfold calculate_dynamodb_table_costs at hrow
      dsimp only at hrow
      rw [List.mem_cons] at hrow
      rcases hrow with hrow | hrow
      · subst hrow
        obtain ⟨hta, htb⟩ := htab t (List.mem_cons_self t ts)
        obtain ⟨p1, p2, p3, p4⟩ := table_cost_props t px ud h1 h2 h3 h4 h5 h6 h7 h8 hta htb
        refine ⟨p1, p2, p3, ?_⟩
        dsimp only
        rw [p4]
        simp
      · exact ih (fun u hu => htab u (List.mem_cons_of_mem _ hu)) row hrow
  · intro memory reqs dur gp rp hm hr hd hg hp
    unfold estimate_lambda_cost
    dsimp only
    refine ⟨?_, ?_, ?_⟩
    · exact pyRound_nonneg _
        (mul_nonneg (mul_nonneg (mul_nonneg hr (div_nonneg hm (by norm_num))) hd) hg)
    · exact pyRound_nonneg _ (mul_nonneg hr hp)
    · have t1 := abs_pyRound_sub
        (reqs * rp + reqs * (memory / 1024) * dur * gp) 4
      have t2 := abs_pyRound_sub (reqs * rp) 4
      have t3 := abs_pyRound_sub (reqs * (memory / 1024) * dur * gp) 4
      rw [abs_le] at t1 t2 t3 ⊢
      norm_num at t1 t2 t3 ⊢
      constructor <;> linarith

/-- Witness for C6 at concrete inputs: a provisioned table at the Example 1
prices, and the spec's Example 2 Lambda (512 MB, 1,000,000 invocations, 1 s,
$0.0000166667 per GB-second, $0.0000002 per request). -/
theorem c6_witness :
    (∀ row ∈ (calculate_dynamodb_table_costs [⟨"PROVISIONED", 5, 5⟩]
        ⟨65/100000, 65/100000, 1/4, 0, 0⟩ ⟨1000000, 500000, 10⟩).1,
      0 ≤ row.cost_read ∧ 0 ≤ row.cost_write ∧ 0 ≤ row.cost_storage ∧
      |row.subtotal - (row.cost_read + row.cost_write + row.cost_storage)| ≤ 1/1000) ∧
    (0 ≤ (estimate_lambda_cost 512 1000000 1 (166667/10000000000)
        (2/10000000)).compute_cost ∧
     0 ≤ (estimate_lambda_cost 512 1000000 1 (166667/10000000000)
        (2/10000000)).request_cost ∧
     |(estimate_lambda_cost 512 1000000 1 (166667/10000000000) (2/10000000)).total_cost -
       ((estimate_lambda_cost 512 1000000 1 (166667/10000000000) (2/10000000)).compute_cost +
        (estimate_lambda_cost 512 1000000 1 (166667/10000000000) (2/10000000)).request_cost)| ≤
       1/1000) := by
  constructor
  · exact c6_nonneg_components_subtotal.1 _ _ _ (by norm_num) (by norm_num) (by norm_num)
      (by norm_num) (by norm_num) (by norm_num) (by norm_num) (by norm_num)
      (by
        intro t ht
        simp only [List.mem_singleton] at ht
        subst ht
        exact ⟨by norm_num, by norm_num⟩)
  · exact c6_nonneg_components_subtotal.2 512 1000000 1 (166667/10000000000) (2/10000000)
      (by norm_num) (by norm_num) (by norm_num) (by norm_num) (by norm_num)

/-! ## Claim C3: rounding precision of monetary outputs -/

/-- Counterexample to C3: `estimate_lambda_cost` rounds to 4 decimal places
(and `calculate_glue_cost` to 2), not to the claimed uniform 3: at 1024 MB,
1 request, 1 s, gb-second price 0.0001234, the returned compute cost is
0.0001, while the claimed 3-decimal rounding of the exact product is 0;
at a DPU-hour price of 0.0015625 the glue cost is 0, while the 3-decimal
rounding is 0.002. -/
theorem c3_counterexample :
    (estimate_lambda_cost 1024 1 1 (1234/10000000) 0).compute_cost = 1/10000 ∧
    pyRound (1 * (1024 / 1024) * 1 * (1234/10000000)) 3 = 0 ∧
    ((1:ℚ)/10000 ≠ 0) ∧
    calculate_glue_cost (fun _ => some (1/640)) "Standard" 1 1 = some 0 ∧
    pyRound (1 * DPU_PER_WORKER "Standard" * 1 * (1/640)) 3 = 2/1000 ∧
    ((0:ℚ) ≠ 2/1000) := by
  refine ⟨?_, ?_, by norm_num, ?_, ?_, by norm_num⟩
  · norm_num [estimate_lambda_cost, pyRound, rhe]
  · norm_num [pyRound, rhe]
  · norm_num [calculate_glue_cost, DPU_PER_WORKER, pyRound, rhe]
  · norm_num [DPU_PER_WORKER, pyRound, rhe]

/-- C3 as amended: a single rounding rule (round-half-to-even, the `pyRound`
of this file) is applied throughout, but not at a uniform precision:
DynamoDB table costs and S3 bucket costs are rounded to 3 decimal places,
`estimate_lambda_cost` fields to 4, and `calculate_glue_cost` to 2. -/
theorem c3_rounding_precisions :
    (∀ memory reqs dur gp rp : ℚ,
      (estimate_lambda_cost memory reqs dur gp rp).compute_cost =
        pyRound (reqs * (memory / 1024) * dur * gp) 4 ∧
      (estimate_lambda_cost memory reqs dur gp rp).request_cost = pyRound (reqs * rp) 4 ∧
      (estimate_lambda_cost memory reqs dur gp rp).total_cost =
        pyRound (reqs * rp + reqs * (memory / 1024) * dur * gp) 4) ∧
    (∀ (pf : String → Option ℚ) wt (nw hrs p : ℚ), pf wt = some p → p ≠ 0 →
      calculate_glue_cost pf wt nw hrs =
        some (pyRound (nw * DPU_PER_WORKER wt * hrs * p) 2)) ∧
    (∀ (t : DTable) (px : DynPrices) (ud : DynDefaults),
      (calculate_table_cost t px ud).cost_storage = pyRound (ud.storage * px.storage) 3 ∧
      (strToUpper t.billing_mode = "PROVISIONED" →
        (calculate_table_cost t px ud).cost_read =
          pyRound (t.read_capacity * 720 * px.read_prov) 3 ∧
        (calculate_table_cost t px ud).cost_write =
          pyRound (t.write_capacity * 720 * px.write_prov) 3) ∧
      (strToUpper t.billing_mode ≠ "PROVISIONED" →
        (calculate_table_cost t px ud).cost_read =
          pyRound (ud.reads * 1 * px.read_ondemand) 3 ∧
        (calculate_table_cost t px ud).cost_write =
          pyRound (ud.writes * 1 * px.write_ondemand) 3)) ∧
    (∀ lifecycle transPrice (storage pr gr stdP putP getP : ℚ) b row,
      s3BucketRow lifecycle transPrice storage pr gr stdP putP getP b = .ok row →
      row.put_cost = pyRound (pr / 1000 * putP) 3 ∧
      row.get_cost = pyRound (gr / 1000 * getP) 3 ∧
      ∃ x, row.storage_cost = pyRound x 3) := by
  refine ⟨?_, ?_, ?_, ?_⟩
  · intro memory reqs dur gp rp
    unfold estimate_lambda_cost
    dsimp only
    exact ⟨rfl, rfl, rfl⟩
  · intro pf wt nw hrs p hp hne
    unfold calculate_glue_cost
    rw [hp]
    dsimp only
    rw [if_neg hne]
  · intro t px ud
    unfold calculate_table_cost HOURS_PER_MONTH
    dsimp only
    refine ⟨rfl, ?_, ?_⟩
    · intro hb
      simp only [if_pos hb]
      exact ⟨trivial, trivial⟩
    · intro hb
      simp only [if_neg hb]
      exact ⟨trivial, trivial⟩
  · intro lifecycle transPrice storage pr gr stdP putP getP b row hrow
    unfold s3BucketRow at hrow
    dsimp only at hrow
    rcases hlc : (lifecycle b).1 with _ | c
    · rw [hlc] at hrow
      dsimp only at hrow
      have heq := Except.ok.inj hrow
      subst heq
      exact ⟨rfl, rfl, _, rfl⟩
    · rw [hlc] at hrow
      dsimp only at hrow
      by_cases hce : c = ""
      · rw [if_pos hce] at hrow
        have heq := Except.ok.inj hrow
        subst heq
        exact ⟨rfl, rfl, _, rfl⟩
      · rw [if_neg hce] at hrow
        rcases htd : (lifecycle b).2 with _ | d
        · rw [htd] at hrow
          dsimp only at hrow
          exact absurd hrow (by simp)
        · rw [htd] at hrow
          dsimp only at hrow
          by_cases hd : d < 30
          · rw [if_pos hd] at hrow
            rcases htp : transPrice c with _ | tp
            · rw [htp] at hrow
              dsimp only at hrow
              exact absurd hrow (by simp)
            · rw [htp] at hrow
              dsimp only at hrow
              have heq := Except.ok.inj hrow
              subst heq
              exact ⟨rfl, rfl, _, rfl⟩
          · rw [if_neg hd] at hrow
            have heq := Except.ok.inj hrow
            subst heq
            exact ⟨rfl, rfl, _, rfl⟩

/-- Witness for the amended C3 at concrete inputs: glue at a priced worker
type, a provisioned table, a lambda request cost, and a transition-free
bucket row. -/
theorem c3_witness :
    calculate_glue_cost (fun _ => some (44/100)) "G.1X" 10 5 =
      some (pyRound (10 * DPU_PER_WORKER "G.1X" * 5 * (44/100)) 2) ∧
    (calculate_table_cost ⟨"PROVISIONED", 5, 5⟩ ⟨65/100000, 65/100000, 1/4, 0, 0⟩
        ⟨0, 0, 10⟩).cost_read = pyRound (5 * 720 * (65/100000)) 3 ∧
    (estimate_lambda_cost 512 1000000 1 (166667/10000000000) (2/10000000)).request_cost =
      pyRound (1000000 * (2/10000000)) 4 ∧
    (⟨"b", pyRound (100 * (23/1000)) 3, pyRound (1000 / 1000 * (5/1000)) 3,
        pyRound (10000 / 1000 * (4/10000)) 3, "STANDARD", none⟩ : S3Row).put_cost =
      pyRound (1000 / 1000 * (5/1000)) 3 ∧
    ∃ x, (⟨"b", pyRound (100 * (23/1000)) 3, pyRound (1000 / 1000 * (5/1000)) 3,
        pyRound (10000 / 1000 * (4/10000)) 3, "STANDARD", none⟩ : S3Row).storage_cost =
      pyRound x 3 := by
  refine ⟨c3_rounding_precisions.2.1 _ _ 10 5 _ rfl (by norm_num), ?_, ?_, ?_, ?_⟩
  · exact ((c3_rounding_precisions.2.2.1 ⟨"PROVISIONED", 5, 5⟩
      ⟨65/100000, 65/100000, 1/4, 0, 0⟩ ⟨0, 0, 10⟩).2.1 rfl).1
  · exact (c3_rounding_precisions.1 512 1000000 1 (166667/10000000000) (2/10000000)).2.1
  · exact (c3_rounding_precisions.2.2.2 (fun _ => (none, none)) (fun _ => none)
      100 1000 10000 (23/1000) (5/1000) (4/10000) "b" _ rfl).1
  · exact (c3_rounding_precisions.2.2.2 (fun _ => (none, none)) (fun _ => none)
      100 1000 10000 (23/1000) (5/1000) (4/10000) "b" _ rfl).2.2

/-! ## Claim C4: free-tier billable quantities and discounts -/

/-- Counterexample to C4: with two provisioned tables of 1 read unit each at
a read price of 1/1800000 $/unit-hour, the free-tier discount of
`apply_free_tier` is the rounded value 0.001, which differs from the
claimed exact (total − billable) × hour-scaled unit price (= 0.0008) and
strictly exceeds the unadjusted read-dimension cost of the tables
(0 + 0 = 0, each per-table read cost rounding to 0). -/
theorem c4_counterexample :
    (apply_free_tier 2 0 0 ⟨1/1800000, 0, 0, 0, 0⟩).billable_read = 0 ∧
    (apply_free_tier 2 0 0 ⟨1/1800000, 0, 0, 0, 0⟩).discount = 1/1000 ∧
    ((1:ℚ)/1000 ≠ (2 - 0) * 720 * (1/1800000)) ∧
    (calculate_dynamodb_table_costs [⟨"PROVISIONED", 1, 0⟩, ⟨"PROVISIONED", 1, 0⟩]
        ⟨1/1800000, 0, 0, 0, 0⟩ ⟨0, 0, 0⟩).2.1 = 2 ∧
    ((calculate_dynamodb_table_costs [⟨"PROVISIONED", 1, 0⟩, ⟨"PROVISIONED", 1, 0⟩]
        ⟨1/1800000, 0, 0, 0, 0⟩ ⟨0, 0, 0⟩).1.map DynRow.cost_read).sum = 0 ∧
    ¬((apply_free_tier 2 0 0 ⟨1/1800000, 0, 0, 0, 0⟩).discount ≤ 0) := by
  have hup : strToUpper "PROVISIONED" = "PROVISIONED" := rfl
  refine ⟨?_, ?_, by norm_num, ?_, ?_, ?_⟩
  · norm_num [apply_free_tier, FREE_TIER_READ_CAPACITY]
  · norm_num [apply_free_tier, FREE_TIER_READ_CAPACITY, FREE_TIER_WRITE_CAPACITY,
      FREE_TIER_STORAGE_GB, HOURS_PER_MONTH, pyRound, rhe]
  · norm_num [calculate_dynamodb_table_costs, calculate_table_cost, hup, HOURS_PER_MONTH]
  · norm_num [calculate_dynamodb_table_costs, calculate_table_cost, hup, HOURS_PER_MONTH,
      pyRound, rhe]
  · norm_num [apply_free_tier, FREE_TIER_READ_CAPACITY, FREE_TIER_WRITE_CAPACITY,
      FREE_TIER_STORAGE_GB, HOURS_PER_MONTH, pyRound, rhe]

/-- C4 as amended: per dimension billable = max(total − allowance, 0) ≤
total and the discount is non-negative, but the DynamoDB discount is the
sum of the per-dimension ROUNDED values round((total − billable) × scale ×
unit price, 3) — within 3/2000 of the claimed exact formula, and (per the
counterexample) able to exceed the unadjusted dimension cost — while the S3
adjuster applies a cost-level clawback: post-tier cost per dimension =
round(max(total cost − allowance × unit price, 0), 3). -/
theorem c4_free_tier_amended :
    (∀ (tr tw ts : ℚ) (px : DynPrices), 0 ≤ tr → 0 ≤ tw → 0 ≤ ts →
      0 ≤ px.read_prov → 0 ≤ px.write_prov → 0 ≤ px.storage →
      (apply_free_tier tr tw ts px).billable_read = max (tr - 25) 0 ∧
      (apply_free_tier tr tw ts px).billable_write = max (tw - 25) 0 ∧
      (apply_free_tier tr tw ts px).billable_storage = max (ts - 25) 0 ∧
      (apply_free_tier tr tw ts px).billable_read ≤ tr ∧
      (apply_free_tier tr tw ts px).billable_write ≤ tw ∧
      (apply_free_tier tr tw ts px).billable_storage ≤ ts ∧
      (apply_free_tier tr tw ts px).discount =
        pyRound ((tr - max (tr - 25) 0) * 720 * px.read_prov) 3 +
        pyRound ((tw - max (tw - 25) 0) * 720 * px.write_prov) 3 +
        pyRound ((ts - max (ts - 25) 0) * px.storage) 3 ∧
      0 ≤ (apply_free_tier tr tw ts px).discount ∧
      |(apply_free_tier tr tw ts px).discount -
          ((tr - max (tr - 25) 0) * 720 * px.read_prov +
           (tw - max (tw - 25) 0) * 720 * px.write_prov +
           (ts - max (ts - 25) 0) * px.storage)| ≤ 3/2000) ∧
    (∀ nb us up ug tsc tpc tgc sp pp gp : ℚ,
      (summarize_s3_totals nb us up ug tsc tpc tgc sp pp gp).billable_storage =
        max (us * nb - 5) 0 ∧
      (summarize_s3_totals nb us up ug tsc tpc tgc sp pp gp).billable_put =
        max (up * nb - 10000) 0 ∧
      (summarize_s3_totals nb us up ug tsc tpc tgc sp pp gp).billable_get =
        max (ug * nb - 100000) 0 ∧
      (summarize_s3_totals nb us up ug tsc tpc tgc sp pp gp).cost_storage =
        pyRound (max (tsc - 5 * sp) 0) 3 ∧
      (summarize_s3_totals nb us up ug tsc tpc tgc sp pp gp).cost_put =
        pyRound (max (tpc - 10000 / 1000 * pp) 0) 3 ∧
      (summarize_s3_totals nb us up ug tsc tpc tgc sp pp gp).cost_get =
        pyRound (max (tgc - 100000 / 1000 * gp) 0) 3 ∧
      0 ≤ (summarize_s3_totals nb us up ug tsc tpc tgc sp pp gp).cost_storage ∧
      0 ≤ (summarize_s3_totals nb us up ug tsc tpc tgc sp pp gp).cost_put ∧
      0 ≤ (summarize_s3_totals nb us up ug tsc tpc tgc sp pp gp).cost_get ∧
      (summarize_s3_totals nb us up ug tsc tpc tgc sp pp gp).total =
        (summarize_s3_totals nb us up ug tsc tpc tgc sp pp gp).cost_storage +
        (summarize_s3_totals nb us up ug tsc tpc tgc sp pp gp).cost_put +
        (summarize_s3_totals nb us up ug tsc tpc tgc sp pp gp).cost_get) := by
  constructor
  · intro tr tw ts px htr htw hts h1 h2 h3
    unfold apply_free_tier FREE_TIER_READ_CAPACITY FREE_TIER_WRITE_CAPACITY
      FREE_TIER_STORAGE_GB HOURS_PER_MONTH
    dsimp only
    have br : max (tr - 25) 0 ≤ tr := max_le (by linarith) htr
    have bw : max (tw - 25) 0 ≤ tw := max_le (by linarith) htw
    have bs : max (ts - 25) 0 ≤ ts := max_le (by linarith) hts
    refine ⟨rfl, rfl, rfl, br, bw, bs, rfl, ?_, ?_⟩
    · have n1 : 0 ≤ (tr - max (tr - 25) 0) * 720 * px.read_prov :=
        mul_nonneg (mul_nonneg (by linarith) (by norm_num)) h1
      have n2 : 0 ≤ (tw - max (tw - 25) 0) * 720 * px.write_prov :=
        mul_nonneg (mul_nonneg (by linarith) (by norm_num)) h2
      have n3 : 0 ≤ (ts - max (ts - 25) 0) * px.storage :=
        mul_nonneg (by linarith) h3
      exact add_nonneg (add_nonneg (pyRound_nonneg _ n1) (pyRound_nonneg _ n2))
        (pyRound_nonneg _ n3)
    · have t1 := abs_pyRound_sub ((tr - max (tr - 25) 0) * 720 * px.read_prov) 3
      have t2 := abs_pyRound_sub ((tw - max (tw - 25) 0) * 720 * px.write_prov) 3
      have t3 := abs_pyRound_sub ((ts - max (ts - 25) 0) * px.storage) 3
      rw [abs_le] at t1 t2 t3 ⊢
      norm_num at t1 t2 t3 ⊢
      constructor <;> linarith
  · intro nb us up ug tsc tpc tgc sp pp gp
    unfold summarize_s3_totals FREE_TIER_S3_GB FREE_TIER_PUT_REQUESTS FREE_TIER_GET_REQUESTS
    dsimp only
    refine ⟨rfl, rfl, rfl, rfl, rfl, rfl, ?_, ?_, ?_, rfl⟩ <;>
      exact pyRound_nonneg _ (le_max_right _ 0)

/-- Witness for the amended C4 at concrete inputs (totals 30/10/40 with all
prices 0.001 for DynamoDB; one 100 GB bucket with standard request totals
for S3). -/
theorem c4_witness :
    ((0:ℚ) ≤ 30 ∧ (0:ℚ) ≤ 1/1000) ∧
    (apply_free_tier 30 10 40 ⟨1/1000, 1/1000, 1/1000, 0, 0⟩).billable_read =
      max (30 - 25) 0 ∧
    0 ≤ (apply_free_tier 30 10 40 ⟨1/1000, 1/1000, 1/1000, 0, 0⟩).discount ∧
    (summarize_s3_totals 1 100 1000 10000 (23/10) (5/1000) (4/100) (23/1000) (5/1000)
        (4/10000)).cost_storage =
      pyRound (max (23/10 - 5 * (23/1000)) 0) 3 ∧
    (summarize_s3_totals 1 100 1000 10000 (23/10) (5/1000) (4/100) (23/1000) (5/1000)
        (4/10000)).total =
      (summarize_s3_totals 1 100 1000 10000 (23/10) (5/1000) (4/100) (23/1000) (5/1000)
        (4/10000)).cost_storage +
      (summarize_s3_totals 1 100 1000 10000 (23/10) (5/1000) (4/100) (23/1000) (5/1000)
        (4/10000)).cost_put +
      (summarize_s3_totals 1 100 1000 10000 (23/10) (5/1000) (4/100) (23/1000) (5/1000)
        (4/10000)).cost_get := by
  have hdyn := c4_free_tier_amended.1 30 10 40 ⟨1/1000, 1/1000, 1/1000, 0, 0⟩
    (by norm_num) (by norm_num) (by norm_num) (by norm_num) (by norm_num) (by norm_num)
  have hs3 := c4_free_tier_amended.2 1 100 1000 10000 (23/10) (5/1000) (4/100) (23/1000)
    (5/1000) (4/10000)
  exact ⟨⟨by norm_num, by norm_num⟩, hdyn.1, hdyn.2.2.2.2.2.2.2.1,
    hs3.2.2.2.1, hs3.2.2.2.2.2.2.2.2.2⟩

/-! ## Claim C1: missing prices and aggregate totals -/

/-- Helper: a worker type present in the tier list is always found by
`listIndexOf`. -/
theorem listIndexOf_isSome_of_mem {x : String} {l : List String} (h : x ∈ l) :
    (listIndexOf x l).isSome := by
  induction l with
  | nil => cases h
  | cons y ys ih =>
    unfold listIndexOf
    by_cases hyx : y = x
    · simp [hyx]
    · rcases List.mem_cons.1 h with h' | h'
      · exact absurd h'.symm hyx
      · simp only [if_neg hyx]
        rcases Option.isSome_iff_exists.1 (ih h') with ⟨j, hj⟩
        simp [hj]

/-- Helper: `suggest_glue_alternatives` never raises for a worker type in
the tier list. -/
theorem suggest_glue_alternatives_ok {pf : String → Option ℚ} {wt : String}
    {nw hrs : ℚ} (h : wt ∈ glue_types) :
    ∃ l, suggest_glue_alternatives pf wt nw hrs = .ok l := by
  unfold suggest_glue_alternatives
  rcases Option.isSome_iff_exists.1 (listIndexOf_isSome_of_mem h) with ⟨i, hi⟩
  rw [hi]
  exact ⟨_, rfl⟩

/-- Helper: a missing or zero price makes the per-price cost computation
raise. -/
theorem ec2_monthly_cost_error {p : Option ℚ} (hours : ℚ)
    (h : p = none ∨ p = some 0) : ec2_monthly_cost p hours = .error "TypeError" := by
  rcases h with h | h <;> rw [h] <;> unfold ec2_monthly_cost
  · rfl
  · dsimp only
    rw [if_pos rfl]

/-- Helper: if any listed instance has a missing or zero (falsy) on-demand
or spot price, `calculate_ec2_costs` cannot return totals: the first faulty
instance reached raises, and any earlier raise also aborts. -/
theorem calculate_ec2_costs_error (od sp : String → Option ℚ) (hours : ℚ)
    (catalog : List (String × CatInfo)) (instances : List (String × Bool))
    (hbad : ∃ x ∈ instances,
      od x.1 = none ∨ od x.1 = some 0 ∨ sp x.1 = none ∨ sp x.1 = some 0) :
    ∀ t, calculate_ec2_costs od sp hours catalog instances ≠ .ok t := by
  revert hbad
  induction instances with
  | nil =>
    intro hbad
    simp at hbad
  | cons x rest ih =>
    intro hbad t ht
    obtain ⟨y, hy, hybad⟩ := hbad
    rcases x with ⟨inst, isSpot⟩
    unfold calculate_ec2_costs at ht
    rcases List.mem_cons.1 hy with hyx | hyx
    · subst hyx
      rcases hybad with h1 | h1 | h1 | h1
      · rw [ec2_monthly_cost_error hours (Or.inl h1)] at ht
        cases ht
      · rw [ec2_monthly_cost_error hours (Or.inr h1)] at ht
        cases ht
      · rcases hod : ec2_monthly_cost (od inst) hours with e | v <;> rw [hod] at ht
        · cases ht
        · rw [ec2_monthly_cost_error hours (Or.inl h1)] at ht
          cases ht
      · rcases hod : ec2_monthly_cost (od inst) hours with e | v <;> rw [hod] at ht
        · cases ht
        · rw [ec2_monthly_cost_error hours (Or.inr h1)] at ht
          cases ht
    · rcases hod : ec2_monthly_cost (od inst) hours with e | v <;> rw [hod] at ht
      · cases ht
      · rcases hsp : ec2_monthly_cost (sp inst) hours with e | w <;> rw [hsp] at ht
        · cases ht
        · rcases hsug : suggest_alternatives inst hours od catalog with _ | _ | l <;>
            rw [hsug] at ht
          · rcases hrec : calculate_ec2_costs od sp hours catalog rest with e | u <;>
              rw [hrec] at ht
            · cases ht
            · exact ih ⟨y, hyx, hybad⟩ u hrec
          · cases ht
          · rcases hrec : calculate_ec2_costs od sp hours catalog rest with e | u <;>
              rw [hrec] at ht
            · cases ht
            · exact ih ⟨y, hyx, hybad⟩ u hrec

/-- C1 fails on the code for Glue (see `c1_counterexample`); this is the
amended statement.  Glue: whenever every job's worker type is a known tier,
`calculate_glue_job_costs` always emits an aggregate total — even when
price lookups return `None` — silently skipping unpriced jobs.  EC2: if any
listed instance has a missing (or zero, falsy) on-demand or spot price,
`calculate_ec2_costs` never returns totals (the "N/A" string reassignment
makes the cost line raise `TypeError`), and `ec2_main` aborts via its
catch-all handler, emitting no totals. -/
theorem c1_missing_price_totals :
    (∀ (pf : String → Option ℚ) (jobs : List GlueJob) (hours : ℚ),
      (∀ j ∈ jobs, j.worker_type ∈ glue_types) →
      ∃ t, calculate_glue_job_costs pf jobs hours = .ok t) ∧
    (∀ (od sp : String → Option ℚ) (hours : ℚ) (catalog : List (String × CatInfo))
        (instances : List (String × Bool)),
      (∃ x ∈ instances,
        od x.1 = none ∨ od x.1 = some 0 ∨ sp x.1 = none ∨ sp x.1 = some 0) →
      (∀ t, calculate_ec2_costs od sp hours catalog instances ≠ .ok t) ∧
      ∃ e, ec2_main od sp hours catalog instances = .aborted e) := by
  constructor
  · intro pf jobs hours hwt
    suffices h : ∃ t, glueJobsTotal pf hours jobs = .ok t by
      rcases h with ⟨t, ht⟩
      unfold calculate_glue_job_costs
      rw [ht]
      exact ⟨_, rfl⟩
    induction jobs with
    | nil => exact ⟨0, rfl⟩
    | cons j js ih =>
      rcases @suggest_glue_alternatives_ok pf j.worker_type j.num_workers hours
        (hwt j (List.mem_cons_self j js)) with ⟨l, hl⟩
      rcases ih (fun u hu => hwt u (List.mem_cons_of_mem _ hu)) with ⟨t, ht⟩
      unfold glueJobsTotal
      rw [hl, ht]
      exact ⟨_, rfl⟩
  · intro od sp hours catalog instances hbad
    have hmain := calculate_ec2_costs_error od sp hours catalog instances hbad
    refine ⟨hmain, ?_⟩
    have hne : instances.isEmpty = false := by
      rcases hbad with ⟨x, hx, _⟩
      cases instances
      · cases hx
      · rfl
    unfold ec2_main
    rw [hne]
    rcases hres : calculate_ec2_costs od sp hours catalog instances with e | t
    · simp [hres]
    · exact absurd hres (hmain t)


/-- Counterexample to C1: with two Glue jobs (Standard and G.2X, 10 workers
each, 10 monthly hours) and a DPU-hour price available only for G.2X, the
Standard job's cost is `None` and is silently skipped, yet
`calculate_glue_job_costs` still emits the aggregate total $156 computed
from the priced job alone — there is no pricing-unavailable abort. -/
theorem c1_counterexample :
    calculate_glue_cost pfC1 "Standard" 10 10 = none ∧
    calculate_glue_job_costs pfC1 [⟨"a", "Standard", 10⟩, ⟨"b", "G.2X", 10⟩] 10 = .ok 156 := by
  have h1 : calculate_glue_cost pfC1 "Standard" 10 10 = none := rfl
  have hd : DPU_PER_WORKER "G.2X" = 2 := rfl
  have h78 : pfC1 "G.2X" = some (78/100) := rfl
  have h2 : calculate_glue_cost pfC1 "G.2X" 10 10 =
      some (pyRound (10 * (2:ℚ) * 10 * (78/100)) 2) := by
    unfold calculate_glue_cost
    rw [h78]
    dsimp only
    rw [if_neg (by norm_num : ¬((78:ℚ)/100 = 0)), hd]
  have h2v : pyRound (10 * (2:ℚ) * 10 * (78/100)) 2 = 156 := by
    norm_num [pyRound, rhe]
  have hnil : glueJobsTotal pfC1 10 [] = .ok 0 := rfl
  rcases @suggest_glue_alternatives_ok pfC1 "Standard" 10 10
    (by simp [glue_types]) with ⟨l1, hl1⟩
  rcases @suggest_glue_alternatives_ok pfC1 "G.2X" 10 10
    (by simp [glue_types]) with ⟨l2, hl2⟩
  refine ⟨h1, ?_⟩
  unfold calculate_glue_job_costs glueJobsTotal glueJobsTotal
  dsimp only
  rw [h1, h2, h2v, hl1, hl2, hnil]
  dsimp only
  norm_num [pyRound, rhe]

/-- Witness for the amended C1: an unpriced single Glue job still yields a
total, while an unpriced EC2 instance yields no totals and aborts the
kind. -/
theorem c1_witness :
    (∀ j ∈ ([⟨"g", "Standard", 1⟩] : List GlueJob), j.worker_type ∈ glue_types) ∧
    (∃ t, calculate_glue_job_costs (fun _ => none) [⟨"g", "Standard", 1⟩] 1 = .ok t) ∧
    (∃ x ∈ ([("i1", false)] : List (String × Bool)),
      (fun _ => (none : Option ℚ)) x.1 = none ∨ (fun _ => (none : Option ℚ)) x.1 = some 0 ∨
      (fun _ => (none : Option ℚ)) x.1 = none ∨ (fun _ => (none : Option ℚ)) x.1 = some 0) ∧
    (∀ t, calculate_ec2_costs (fun _ => none) (fun _ => none) 720 [] [("i1", false)] ≠
      .ok t) ∧
    (∃ e, ec2_main (fun _ => none) (fun _ => none) 720 [] [("i1", false)] = .aborted e) := by
  have hwt : ∀ j ∈ ([⟨"g", "Standard", 1⟩] : List GlueJob), j.worker_type ∈ glue_types := by
    intro j hj
    simp only [List.mem_singleton] at hj
    subst hj
    simp [glue_types]
  have hbad : ∃ x ∈ ([("i1", false)] : List (String × Bool)),
      (fun _ => (none : Option ℚ)) x.1 = none ∨ (fun _ => (none : Option ℚ)) x.1 = some 0 ∨
      (fun _ => (none : Option ℚ)) x.1 = none ∨ (fun _ => (none : Option ℚ)) x.1 = some 0 :=
    ⟨("i1", false), by simp, Or.inl rfl⟩
  have hec2 := c1_missing_price_totals.2 (fun _ => none) (fun _ => none) 720 [] [("i1", false)]
    hbad
  exact ⟨hwt, c1_missing_price_totals.1 (fun _ => none) [⟨"g", "Standard", 1⟩] 1 hwt,
    hbad, hec2.1, hec2.2⟩

/-! ## Claim C2: extractor totality -/

/-- Counterexample to C2: a plan document that is not a mapping makes
`extract_s3_buckets` raise `AttributeError` (not return []); a record of
the matching type lacking the `change` key raises `KeyError`; and a lambda
record with an empty `architectures` list raises `IndexError`. -/
theorem c2_counterexample :
    extract_s3_buckets (JVal.arr []) = .error "AttributeError" ∧
    extract_s3_buckets (JVal.obj [("resource_changes",
      JVal.arr [JVal.obj [("type", JVal.str "aws_s3_bucket")]])]) = .error "KeyError" ∧
    extract_lambda_functions (JVal.obj [("resource_changes",
      JVal.arr [JVal.obj [("type", JVal.str "aws_lambda_function"),
        ("change", JVal.obj [("after", JVal.obj [("architectures", JVal.arr [])])])]])]) =
      .error "IndexError" := by
  exact ⟨rfl, rfl, rfl⟩

/-- Helper: subscription on a mapping with a present key. -/
theorem getItem_obj {fs : List (String × JVal)} {k : String} {v : JVal}
    (h : fs.lookup k = some v) : (JVal.obj fs).getItem k = .ok v := by
  unfold JVal.getItem
  dsimp only
  rw [h]

/-- Helper: `dict.get` on a mapping with the key present. -/
theorem getD_obj_some {fs : List (String × JVal)} {k : String} {v d : JVal}
    (h : fs.lookup k = some v) : (JVal.obj fs).getD k d = .ok v := by
  unfold JVal.getD
  dsimp only
  rw [h]
  rfl

/-- Helper: `dict.get` on a mapping with the key absent. -/
theorem getD_obj_none {fs : List (String × JVal)} {k : String} {d : JVal}
    (h : fs.lookup k = none) : (JVal.obj fs).getD k d = .ok d := by
  unfold JVal.getD
  dsimp only
  rw [h]
  rfl

/-- Helper: unpacking a well-formed record. -/
theorem wfRecord_elim {r : JVal} (h : wfRecord r = true) :
    ∃ fs ty cfs af, r = JVal.obj fs ∧ fs.lookup "type" = some (.str ty) ∧
      fs.lookup "change" = some (.obj cfs) ∧ cfs.lookup "after" = some af ∧
      wfAfter af = true := by
  unfold wfRecord at h
  split at h
  case _ fs =>
    rw [Bool.and_eq_true] at h
    obtain ⟨h1, h2⟩ := h
    split at h1
    case _ ty hty =>
      split at h2
      case _ cfs hch =>
        split at h2
        case _ af haf => exact ⟨fs, ty, cfs, af, rfl, hty, hch, haf, h2⟩
        case _ => simp at h2
      case _ => simp at h2
    case _ => simp at h1
  case _ => simp at h

/-- Helper: unpacking a well-formed `after` mapping. -/
theorem wfAfter_elim {af : JVal} (h : wfAfter af = true) :
    ∃ afs, af = JVal.obj afs ∧ (afs.lookup "architectures" = none ∨
      ∃ x xs, afs.lookup "architectures" = some (.arr (x :: xs))) := by
  unfold wfAfter at h
  split at h
  case _ afs =>
    refine ⟨afs, rfl, ?_⟩
    split at h
    case _ x xs ha => exact Or.inr ⟨x, xs, ha⟩
    case _ => simp at h
    case _ ha => exact Or.inl ha
  case _ => simp at h

/-- Helper: the S3 extractor loop succeeds on well-formed records. -/
theorem extractS3FromList_ok {rs : List JVal} (h : rs.all wfRecord = true) :
    ∃ l, extractS3FromList rs = .ok l := by
  induction rs with
  | nil => exact ⟨[], rfl⟩
  | cons r rest ih =>
    rw [List.all_cons, Bool.and_eq_true] at h
    obtain ⟨hr, hrest⟩ := h
    obtain ⟨fs, ty, cfs, af, hrfs, hty, hch, haf, hwaf⟩ := wfRecord_elim hr
    obtain ⟨afs, hafs, _harch⟩ := wfAfter_elim hwaf
    obtain ⟨l, hl⟩ := ih hrest
    subst hrfs
    subst hafs
    unfold extractS3FromList
    rw [getItem_obj hty]
    dsimp only
    by_cases hb : ty = "aws_s3_bucket"
    · rw [if_pos (show JVal.eqStr (.str ty) "aws_s3_bucket" = true by
        simp [JVal.eqStr, hb])]
      rw [getItem_obj hch]
      dsimp only
      rw [getItem_obj haf]
      dsimp only
      rw [show (JVal.obj afs).getD "bucket" JVal.null =
        .ok ((afs.lookup "bucket").getD .null) from rfl]
      dsimp only
      rw [hl]
      exact ⟨_, rfl⟩
    · rw [if_neg (show ¬(JVal.eqStr (.str ty) "aws_s3_bucket" = true) by
        simp [JVal.eqStr, hb])]
      rw [hl]
      exact ⟨l, rfl⟩

/-- Helper: the Lambda extractor loop succeeds on well-formed records,
including the `architectures` defaulting and first-element access. -/
theorem extractLambdaFromList_ok {rs : List JVal} (h : rs.all wfRecord = true) :
    ∃ l, extractLambdaFromList rs = .ok l := by
  induction rs with
  | nil => exact ⟨[], rfl⟩
  | cons r rest ih =>
    rw [List.all_cons, Bool.and_eq_true] at h
    obtain ⟨hr, hrest⟩ := h
    obtain ⟨fs, ty, cfs, af, hrfs, hty, hch, haf, hwaf⟩ := wfRecord_elim hr
    obtain ⟨afs, hafs, harch⟩ := wfAfter_elim hwaf
    obtain ⟨l, hl⟩ := ih hrest
    subst hrfs
    subst hafs
    unfold extractLambdaFromList
    rw [getItem_obj hty]
    dsimp only
    by_cases hb : ty = "aws_lambda_function"
    · rw [if_pos (show JVal.eqStr (.str ty) "aws_lambda_function" = true by
        simp [JVal.eqStr, hb])]
      rw [getItem_obj hch]
      dsimp only
      rw [getItem_obj haf]
      dsimp only
      rw [show (JVal.obj afs).getD "memory_size" (.num 128) =
        .ok ((afs.lookup "memory_size").getD (.num 128)) from rfl]
      dsimp only
      rw [show (JVal.obj afs).getD "timeout" (.num 3) =
        .ok ((afs.lookup "timeout").getD (.num 3)) from rfl]
      dsimp only
      rw [show (JVal.obj afs).getD "architectures" (.arr [.str "x86_64"]) =
        .ok ((afs.lookup "architectures").getD (.arr [.str "x86_64"])) from rfl]
      dsimp only
      rcases harch with hnone | ⟨x, xs, hsome⟩
      · rw [show JVal.item0 ((afs.lookup "architectures").getD (.arr [.str "x86_64"])) =
          .ok (.str "x86_64") by rw [hnone]; rfl]
        dsimp only
        rw [show (JVal.obj afs).getD "name" JVal.null =
          .ok ((afs.lookup "name").getD .null) from rfl]
        dsimp only
        rw [hl]
        exact ⟨_, rfl⟩
      · rw [show JVal.item0 ((afs.lookup "architectures").getD (.arr [.str "x86_64"])) =
          .ok x by rw [hsome]; rfl]
        dsimp only
        rw [show (JVal.obj afs).getD "name" JVal.null =
          .ok ((afs.lookup "name").getD .null) from rfl]
        dsimp only
        rw [hl]
        exact ⟨_, rfl⟩
    · rw [if_neg (show ¬(JVal.eqStr (.str ty) "aws_lambda_function" = true) by
        simp [JVal.eqStr, hb])]
      rw [hl]
      exact ⟨l, rfl⟩

/-- Helper: the DynamoDB extractor loop succeeds on well-formed records. -/
theorem extractDynFromList_ok {rs : List JVal} (h : rs.all wfRecord = true) :
    ∃ l, extractDynFromList rs = .ok l := by
  induction rs with
  | nil => exact ⟨[], rfl⟩
  | cons r rest ih =>
    rw [List.all_cons, Bool.and_eq_true] at h
    obtain ⟨hr, hrest⟩ := h
    obtain ⟨fs, ty, cfs, af, hrfs, hty, hch, haf, hwaf⟩ := wfRecord_elim hr
    obtain ⟨afs, hafs, _harch⟩ := wfAfter_elim hwaf
    obtain ⟨l, hl⟩ := ih hrest
    subst hrfs
    subst hafs
    unfold extractDynFromList
    rw [getItem_obj hty]
    dsimp only
    by_cases hb : ty = "aws_dynamodb_table"
    · rw [if_pos (show JVal.eqStr (.str ty) "aws_dynamodb_table" = true by
        simp [JVal.eqStr, hb])]
      rw [getD_obj_some hch]
      dsimp only
      rw [getD_obj_some haf]
      dsimp only
      rw [show (JVal.obj afs).getD "billing_mode" (.str "PROVISIONED") =
        .ok ((afs.lookup "billing_mode").getD (.str "PROVISIONED")) from rfl]
      dsimp only
      rw [show (JVal.obj afs).getD "read_capacity" (.num 0) =
        .ok ((afs.lookup "read_capacity").getD (.num 0)) from rfl]
      dsimp only
      rw [show (JVal.obj afs).getD "write_capacity" (.num 0) =
        .ok ((afs.lookup "write_capacity").getD (.num 0)) from rfl]
      dsimp only
      rw [hl]
      exact ⟨_, rfl⟩
    · rw [if_neg (show ¬(JVal.eqStr (.str ty) "aws_dynamodb_table" = true) by
        simp [JVal.eqStr, hb])]
      rw [hl]
      exact ⟨l, rfl⟩

/-- Helper: the Glue extractor loop succeeds on well-formed records. -/
theorem extractGlueFromList_ok {rs : List JVal} (h : rs.all wfRecord = true) :
    ∃ l, extractGlueFromList rs = .ok l := by
  induction rs with
  | nil => exact ⟨[], rfl⟩
  | cons r rest ih =>
    rw [List.all_cons, Bool.and_eq_true] at h
    obtain ⟨hr, hrest⟩ := h
    obtain ⟨fs, ty, cfs, af, hrfs, hty, hch, haf, hwaf⟩ := wfRecord_elim hr
    obtain ⟨afs, hafs, _harch⟩ := wfAfter_elim hwaf
    obtain ⟨l, hl⟩ := ih hrest
    subst hrfs
    subst hafs
    unfold extractGlueFromList
    rw [getItem_obj hty]
    dsimp only
    by_cases hb : ty = "aws_glue_job"
    · rw [if_pos (show JVal.eqStr (.str ty) "aws_glue_job" = true by
        simp [JVal.eqStr, hb])]
      rw [getItem_obj hch]
      dsimp only
      rw [getItem_obj haf]
      dsimp only
      rw [show (JVal.obj afs).getD "worker_type" (.str "Standard") =
        .ok ((afs.lookup "worker_type").getD (.str "Standard")) from rfl]
      dsimp only
      rw [show (JVal.obj afs).getD "number_of_workers" (.num 10) =
        .ok ((afs.lookup "number_of_workers").getD (.num 10)) from rfl]
      dsimp only
      rw [show (JVal.obj afs).getD "name" (.str "Unnamed") =
        .ok ((afs.lookup "name").getD (.str "Unnamed")) from rfl]
      dsimp only
      rw [hl]
      exact ⟨_, rfl⟩
    · rw [if_neg (show ¬(JVal.eqStr (.str ty) "aws_glue_job" = true) by
        simp [JVal.eqStr, hb])]
      rw [hl]
      exact ⟨l, rfl⟩

/-- Helper: the EC2 extractor loop succeeds on well-formed records. -/
theorem extractEc2FromList_ok {rs : List JVal} (h : rs.all wfRecord = true) :
    ∃ l, extractEc2FromList rs = .ok l := by
  induction rs with
  | nil => exact ⟨[], rfl⟩
  | cons r rest ih =>
    rw [List.all_cons, Bool.and_eq_true] at h
    obtain ⟨hr, hrest⟩ := h
    obtain ⟨fs, ty, cfs, af, hrfs, hty, hch, haf, hwaf⟩ := wfRecord_elim hr
    obtain ⟨afs, hafs, _harch⟩ := wfAfter_elim hwaf
    obtain ⟨l, hl⟩ := ih hrest
    subst hrfs
    subst hafs
    unfold extractEc2FromList
    rw [getItem_obj hty]
    dsimp only
    by_cases hb : ty = "aws_instance"
    · rw [if_pos (show JVal.eqStr (.str ty) "aws_instance" = true by
        simp [JVal.eqStr, hb])]
      rw [getItem_obj hch]
      dsimp only
      rw [getItem_obj haf]
      dsimp only
      rw [show (JVal.obj afs).getD "instance_type" JVal.null =
        .ok ((afs.lookup "instance_type").getD .null) from rfl]
      dsimp only
      rw [show (JVal.obj afs).getD "spot_instance" JVal.null =
        .ok ((afs.lookup "spot_instance").getD .null) from rfl]
      dsimp only
      rw [hl]
      exact ⟨_, rfl⟩
    · rw [if_neg (show ¬(JVal.eqStr (.str ty) "aws_instance" = true) by
        simp [JVal.eqStr, hb])]
      rw [hl]
      exact ⟨l, rfl⟩

/-- C2 fails on the code (see `c2_counterexample`); this is the amended
statement.  On a well-formed plan document — a mapping whose resource-change
collection, when present, is a list of records each being a mapping with a
string `type` tag and a `change.after` mapping whose `architectures`, when
present, is a nonempty list — all five extractors succeed, applying the
documented per-field defaults; a mapping without the resource-change
collection yields the empty list from every extractor; missing optional
fields produce the documented defaults (lambda: memory 128, timeout 3,
architecture x86_64; dynamodb: PROVISIONED, 0, 0; glue: Unnamed, Standard,
10).  A non-mapping document, a record lacking `type` or `change.after`, or
an empty `architectures` list raises instead of yielding []. -/
theorem c2_extractors_amended :
    (∀ td : JVal, wfPlan td = true →
      (∃ l, extract_s3_buckets td = .ok l) ∧ (∃ l, extract_lambda_functions td = .ok l) ∧
      (∃ l, extract_dynamodb_tables td = .ok l) ∧ (∃ l, extract_glue_jobs td = .ok l) ∧
      (∃ l, extract_ec2_instances td = .ok l)) ∧
    (∀ fs : List (String × JVal), fs.lookup "resource_changes" = none →
      extract_s3_buckets (.obj fs) = .ok [] ∧ extract_lambda_functions (.obj fs) = .ok [] ∧
      extract_dynamodb_tables (.obj fs) = .ok [] ∧ extract_glue_jobs (.obj fs) = .ok [] ∧
      extract_ec2_instances (.obj fs) = .ok []) ∧
    (extract_lambda_functions (JVal.obj [("resource_changes", JVal.arr [JVal.obj
        [("type", JVal.str "aws_lambda_function"),
         ("change", JVal.obj [("after", JVal.obj [])])]])]) =
      .ok [⟨.null, .num 128, .num 3, .str "x86_64"⟩]) ∧
    (extract_dynamodb_tables (JVal.obj [("resource_changes", JVal.arr [JVal.obj
        [("type", JVal.str "aws_dynamodb_table"),
         ("change", JVal.obj [("after", JVal.obj [])])]])]) =
      .ok [⟨.str "PROVISIONED", .num 0, .num 0⟩]) ∧
    (extract_glue_jobs (JVal.obj [("resource_changes", JVal.arr [JVal.obj
        [("type", JVal.str "aws_glue_job"),
         ("change", JVal.obj [("after", JVal.obj [])])]])]) =
      .ok [⟨.str "Unnamed", .str "Standard", .num 10⟩]) := by
  refine ⟨?_, ?_, rfl, rfl, rfl⟩
  · intro td h
    unfold wfPlan at h
    split at h
    case _ fs =>
      split at h
      case _ rs hrc =>
        obtain ⟨l1, h1⟩ := extractS3FromList_ok h
        obtain ⟨l2, h2⟩ := extractLambdaFromList_ok h
        obtain ⟨l3, h3⟩ := extractDynFromList_ok h
        obtain ⟨l4, h4⟩ := extractGlueFromList_ok h
        obtain ⟨l5, h5⟩ := extractEc2FromList_ok h
        refine ⟨⟨l1, ?_⟩, ⟨l2, ?_⟩, ⟨l3, ?_⟩, ⟨l4, ?_⟩, ⟨l5, ?_⟩⟩ <;>
          first
          | (unfold extract_s3_buckets
             rw [getD_obj_some hrc]
             dsimp only [JVal.iterList]
             exact h1)
          | (unfold extract_lambda_functions
             rw [getD_obj_some hrc]
             dsimp only [JVal.iterList]
             exact h2)
          | (unfold extract_dynamodb_tables
             rw [getD_obj_some hrc]
             dsimp only [JVal.iterList]
             exact h3)
          | (unfold extract_glue_jobs
             rw [getD_obj_some hrc]
             dsimp only [JVal.iterList]
             exact h4)
          | (unfold extract_ec2_instances
             rw [getD_obj_some hrc]
             dsimp only [JVal.iterList]
             exact h5)
      case _ => simp at h
      case _ hrc =>
        refine ⟨⟨[], ?_⟩, ⟨[], ?_⟩, ⟨[], ?_⟩, ⟨[], ?_⟩, ⟨[], ?_⟩⟩ <;>
          first
          | (unfold extract_s3_buckets
             rw [getD_obj_none hrc]
             rfl)
          | (unfold extract_lambda_functions
             rw [getD_obj_none hrc]
             rfl)
          | (unfold extract_dynamodb_tables
             rw [getD_obj_none hrc]
             rfl)
          | (unfold extract_glue_jobs
             rw [getD_obj_none hrc]
             rfl)
          | (unfold extract_ec2_instances
             rw [getD_obj_none hrc]
             rfl)
    case _ => simp at h
  · intro fs hrc
    refine ⟨?_, ?_, ?_, ?_, ?_⟩ <;>
      first
      | (unfold extract_s3_buckets
         rw [getD_obj_none hrc]
         rfl)
      | (unfold extract_lambda_functions
         rw [getD_obj_none hrc]
         rfl)
      | (unfold extract_dynamodb_tables
         rw [getD_obj_none hrc]
         rfl)
      | (unfold extract_glue_jobs
         rw [getD_obj_none hrc]
         rfl)
      | (unfold extract_ec2_instances
         rw [getD_obj_none hrc]
         rfl)

/-- Witness for the amended C2: a concrete well-formed document with one
record per kind, and a concrete mapping without the resource-change
collection. -/
theorem c2_witness :
    wfPlan (JVal.obj [("resource_changes", JVal.arr [
      JVal.obj [("type", JVal.str "aws_s3_bucket"),
        ("change", JVal.obj [("after", JVal.obj [("bucket", JVal.str "b")])])],
      JVal.obj [("type", JVal.str "aws_lambda_function"),
        ("change", JVal.obj [("after", JVal.obj [("memory_size", JVal.num 256),
          ("architectures", JVal.arr [JVal.str "arm64"])])])]])]) = true ∧
    (∃ l, extract_s3_buckets (JVal.obj [("resource_changes", JVal.arr [
      JVal.obj [("type", JVal.str "aws_s3_bucket"),
        ("change", JVal.obj [("after", JVal.obj [("bucket", JVal.str "b")])])],
      JVal.obj [("type", JVal.str "aws_lambda_function"),
        ("change", JVal.obj [("after", JVal.obj [("memory_size", JVal.num 256),
          ("architectures", JVal.arr [JVal.str "arm64"])])])]])]) = .ok l) ∧
    (List.lookup "resource_changes" [("configuration", JVal.obj [])] = none ∧
      extract_s3_buckets (.obj [("configuration", JVal.obj [])]) = .ok []) := by
  refine ⟨rfl, ?_, rfl, ?_⟩
  · exact (c2_extractors_amended.1 _ (by rfl)).1
  · exact (c2_extractors_amended.2.1 [("configuration", JVal.obj [])] rfl).1

/-! ## Claim C7: EC2 alternative suggestions -/

/-- Helper: a successful dictionary lookup means the pair is in the list. -/
theorem lookup_mem {l : List (String × CatInfo)} {k : String} {v : CatInfo}
    (h : l.lookup k = some v) : (k, v) ∈ l := by
  induction l with
  | nil => cases h
  | cons p ps ih =>
    rcases p with ⟨a, b⟩
    rw [List.lookup] at h
    split at h
    case _ heq =>
      injection h with hbv
      subst hbv
      have hk : k = a := eq_of_beq heq
      subst hk
      exact List.mem_cons_self _ _
    case _ heq => exact List.mem_cons_of_mem _ (ih h)

/-- Helper: unpacking a candidate built by `mkCandidate`. -/
theorem mkCandidate_elim {pf : String → Option ℚ} {hours : ℚ} {famPfx nm : String}
    {info : CatInfo} {c : Candidate}
    (h : mkCandidate pf hours famPfx nm info = some c) :
    c.name = nm ∧ strStartsWith nm famPfx = true ∧
    ∃ q, pf nm = some q ∧ 0 < q ∧
      c = ⟨nm, info.vCPU, info.memoryGB, pyRound q 3, pyRound (q * hours) 3⟩ := by
  unfold mkCandidate at h
  by_cases hs : strStartsWith nm famPfx = true
  · rw [if_pos hs] at h
    rcases hq : pf nm with _ | q
    · rw [hq] at h
      cases h
    · rw [hq] at h
      dsimp only at h
      by_cases hq0 : 0 < q
      · rw [if_pos hq0] at h
        injection h with hc
        subst hc
        exact ⟨rfl, hs, q, rfl, hq0, rfl⟩
      · rw [if_neg hq0] at h
        cases h
  · rw [if_neg hs] at h
    cases h

/-- Helper: building the candidate of a priced, same-family catalog
entry. -/
theorem mkCandidate_intro {pf : String → Option ℚ} {hours : ℚ} {famPfx nm : String}
    {info : CatInfo} {q : ℚ} (hs : strStartsWith nm famPfx = true)
    (hq : pf nm = some q) (h0 : 0 < q) :
    mkCandidate pf hours famPfx nm info =
      some ⟨nm, info.vCPU, info.memoryGB, pyRound q 3, pyRound (q * hours) 3⟩ := by
  unfold mkCandidate
  rw [if_pos hs, hq]
  dsimp only
  rw [if_pos h0]

/-- Helper: every candidate in the candidate list is a same-family entry
with an available positive price, its hourly and monthly fields being the
rounded price values. -/
theorem candidatesFor_mem_elim {pf : String → Option ℚ} {hours : ℚ} {famPfx : String}
    {catalog : List (String × CatInfo)} {c : Candidate}
    (h : c ∈ candidatesFor pf hours famPfx catalog) :
    strStartsWith c.name famPfx = true ∧
    ∃ q, pf c.name = some q ∧ 0 < q ∧ c.hourly = pyRound q 3 ∧
      c.monthly = pyRound (q * hours) 3 := by
  obtain ⟨⟨nm, info⟩, _hmem, hmk⟩ := List.mem_filterMap.1 h
  obtain ⟨hname, hs, q, hq, h0, hc⟩ := mkCandidate_elim hmk
  subst hc
  exact ⟨hs, q, hq, h0, rfl, rfl⟩

/-- Helper: candidate names form a sublist of the catalog keys. -/
theorem candidatesFor_names_sublist (pf : String → Option ℚ) (hours : ℚ) (famPfx : String)
    (catalog : List (String × CatInfo)) :
    ((candidatesFor pf hours famPfx catalog).map Candidate.name).Sublist
      (catalog.map Prod.fst) := by
  induction catalog with
  | nil => simp [candidatesFor]
  | cons p ps ih =>
    rcases p with ⟨nm, info⟩
    unfold candidatesFor at ih ⊢
    rw [List.filterMap_cons]
    rcases hmk : mkCandidate pf hours famPfx nm info with _ | c
    · exact ih.cons _
    · rw [List.map_cons, List.map_cons]
      dsimp only
      rw [(mkCandidate_elim hmk).1]
      exact ih.cons₂ _

/-- Helper: `indexOfName` finds nothing exactly when no element has the
name. -/
theorem indexOfName_eq_none {nm : String} {l : List Candidate} :
    indexOfName nm l = none ↔ ∀ c ∈ l, c.name ≠ nm := by
  induction l with
  | nil => simp [indexOfName]
  | cons c cs ih =>
    unfold indexOfName
    by_cases hc : c.name = nm
    · simp [hc]
    · simp [hc, Option.map_eq_none', ih]

/-- Helper: a found index is in range and points at an element with the
name. -/
theorem indexOfName_some {nm : String} {l : List Candidate} {i : ℕ}
    (h : indexOfName nm l = some i) :
    ∃ hlt : i < l.length, (l.get ⟨i, hlt⟩).name = nm := by
  induction l generalizing i with
  | nil => cases h
  | cons c cs ih =>
    unfold indexOfName at h
    by_cases hc : c.name = nm
    · rw [if_pos hc] at h
      injection h with hi
      subst hi
      exact ⟨Nat.succ_pos _, hc⟩
    · rw [if_neg hc] at h
      rcases Option.map_eq_some'.1 h with ⟨j, hj, hji⟩
      subst hji
      obtain ⟨hlt, hget⟩ := ih hj
      exact ⟨Nat.succ_lt_succ hlt, hget⟩

/-- Helper: with duplicate-free names, no element of the suggestion window
carries the located instance's name (the window skips index `i`). -/
theorem suggestWindow_name_ne {cs : List Candidate} {nm : String} {i : ℕ}
    (hnd : (cs.map Candidate.name).Nodup) (hidx : indexOfName nm cs = some i) :
    ∀ c ∈ suggestWindow cs i, c.name ≠ nm := by
  obtain ⟨hlt, hget⟩ := indexOfName_some hidx
  intro c hc heq
  have hdrop : cs.drop i = cs[i] :: cs.drop (i + 1) := List.drop_eq_getElem_cons hlt
  have hnames : ((cs.take i).map Candidate.name ++
      Candidate.name cs[i] :: (cs.drop (i + 1)).map Candidate.name).Nodup := by
    rw [← List.map_cons, ← hdrop, ← List.map_append, List.take_append_drop]
    exact hnd
  rw [List.nodup_append] at hnames
  obtain ⟨_hn1, hn2, hdisj⟩ := hnames
  have hgetname : Candidate.name cs[i] = nm := hget
  rcases List.mem_append.1 hc with hc1 | hc2
  · have hmem : c ∈ cs.take i := List.drop_subset _ _ hc1
    refine hdisj (List.mem_map_of_mem Candidate.name hmem) ?_
    rw [heq, ← hgetname]
    exact List.mem_cons_self _ _
  · have hmem : c ∈ cs.drop (i + 1) := List.take_subset _ _ hc2
    rw [List.nodup_cons] at hn2
    refine hn2.1 ?_
    rw [hgetname, ← heq]
    exact List.mem_map_of_mem Candidate.name hmem

/-- Helper: every string starts with the segment before its first dot
(Python `s.startswith(s.split('.')[0])`). -/
theorem strStartsWith_famPfx (s : String) : strStartsWith s (famPfxOf s) = true := by
  simp only [strStartsWith, famPfxOf, List.isPrefixOf_iff_prefix]
  exact List.takeWhile_prefix _

/-- C7: when the current instance is in the catalog with an available
positive price (and catalog keys are duplicate-free, as they come from a
dictionary), `suggest_alternatives` keeps exactly the same-family
candidates with available positive prices (hourly = 3-decimal rounded
price), sorts them ascending by (hourly, vCPU, memory), locates the current
instance's index, returns the up-to-2 candidates just before it followed by
the up-to-2 just after it, and the current instance never appears among the
suggestions. -/
theorem c7_suggest_alternatives (catalog : List (String × CatInfo)) (instance_type : String)
    (hours : ℚ) (pf : String → Option ℚ) (info : CatInfo) (p : ℚ)
    (hnd : (catalog.map Prod.fst).Nodup)
    (hlk : catalog.lookup instance_type = some info)
    (hpf : pf instance_type = some p) (hp : 0 < p) :
    ∃ i,
      indexOfName instance_type
        (sortedCandidates pf hours (famPfxOf instance_type) catalog) = some i ∧
      suggest_alternatives instance_type hours pf catalog =
        .suggestions (suggestWindow
          (sortedCandidates pf hours (famPfxOf instance_type) catalog) i) ∧
      List.Sorted candLE (sortedCandidates pf hours (famPfxOf instance_type) catalog) ∧
      (∀ c ∈ sortedCandidates pf hours (famPfxOf instance_type) catalog,
        strStartsWith c.name (famPfxOf instance_type) = true ∧
        ∃ q, pf c.name = some q ∧ 0 < q ∧ c.hourly = pyRound q 3 ∧
          c.monthly = pyRound (q * hours) 3) ∧
      (∀ c ∈ suggestWindow (sortedCandidates pf hours (famPfxOf instance_type) catalog) i,
        c.name ≠ instance_type) := by
  have hmemcat : (instance_type, info) ∈ catalog := lookup_mem hlk
  have hstart : strStartsWith instance_type (famPfxOf instance_type) = true :=
    strStartsWith_famPfx instance_type
  have hcand : (⟨instance_type, info.vCPU, info.memoryGB, pyRound p 3,
      pyRound (p * hours) 3⟩ : Candidate) ∈
      candidatesFor pf hours (famPfxOf instance_type) catalog :=
    List.mem_filterMap.2 ⟨(instance_type, info), hmemcat, mkCandidate_intro hstart hpf hp⟩
  have hperm : (sortedCandidates pf hours (famPfxOf instance_type) catalog).Perm
      (candidatesFor pf hours (famPfxOf instance_type) catalog) :=
    List.perm_insertionSort candLE _
  have hmem_s : (⟨instance_type, info.vCPU, info.memoryGB, pyRound p 3,
      pyRound (p * hours) 3⟩ : Candidate) ∈
      sortedCandidates pf hours (famPfxOf instance_type) catalog :=
    hperm.mem_iff.2 hcand
  rcases hidx : indexOfName instance_type
      (sortedCandidates pf hours (famPfxOf instance_type) catalog) with _ | i
  · exact absurd rfl (indexOfName_eq_none.1 hidx _ hmem_s)
  refine ⟨i, rfl, ?_, ?_, ?_, ?_⟩
  · unfold suggest_alternatives
    rw [hlk]
    dsimp only
    rw [hidx]
  · exact List.sorted_insertionSort candLE _
  · intro c hcs
    exact candidatesFor_mem_elim (hperm.subset hcs)
  · have h1 : ((candidatesFor pf hours (famPfxOf instance_type) catalog).map
        Candidate.name).Nodup :=
      (candidatesFor_names_sublist pf hours _ catalog).nodup hnd
    exact suggestWindow_name_ne ((hperm.map Candidate.name).symm.nodup h1) hidx

/-- Witness for C7: a concrete three-entry catalog (two m5-family instances
and one t3) with prices for the m5 entries, querying alternatives for
m5.xlarge. -/
theorem c7_witness :
    (([("m5.large", (⟨2, 8⟩ : CatInfo)), ("m5.xlarge", ⟨4, 16⟩),
        ("t3.micro", ⟨2, 1⟩)].map Prod.fst).Nodup) ∧
    (List.lookup "m5.xlarge" [("m5.large", (⟨2, 8⟩ : CatInfo)), ("m5.xlarge", ⟨4, 16⟩),
        ("t3.micro", ⟨2, 1⟩)] = some ⟨4, 16⟩) ∧
    ((fun n => if n = "m5.large" then some ((96:ℚ)/1000)
        else if n = "m5.xlarge" then some (192/1000) else none) "m5.xlarge" =
      some (192/1000)) ∧
    (0 < (192:ℚ)/1000) ∧
    (∃ i,
      indexOfName "m5.xlarge"
        (sortedCandidates
          (fun n => if n = "m5.large" then some ((96:ℚ)/1000)
            else if n = "m5.xlarge" then some (192/1000) else none) 720
          (famPfxOf "m5.xlarge")
          [("m5.large", ⟨2, 8⟩), ("m5.xlarge", ⟨4, 16⟩), ("t3.micro", ⟨2, 1⟩)]) = some i ∧
      suggest_alternatives "m5.xlarge" 720
          (fun n => if n = "m5.large" then some ((96:ℚ)/1000)
            else if n = "m5.xlarge" then some (192/1000) else none)
          [("m5.large", ⟨2, 8⟩), ("m5.xlarge", ⟨4, 16⟩), ("t3.micro", ⟨2, 1⟩)] =
        .suggestions (suggestWindow
          (sortedCandidates
            (fun n => if n = "m5.large" then some ((96:ℚ)/1000)
              else if n = "m5.xlarge" then some (192/1000) else none) 720
            (famPfxOf "m5.xlarge")
            [("m5.large", ⟨2, 8⟩), ("m5.xlarge", ⟨4, 16⟩), ("t3.micro", ⟨2, 1⟩)]) i) ∧
      List.Sorted candLE
        (sortedCandidates
          (fun n => if n = "m5.large" then some ((96:ℚ)/1000)
            else if n = "m5.xlarge" then some (192/1000) else none) 720
          (famPfxOf "m5.xlarge")
          [("m5.large", ⟨2, 8⟩), ("m5.xlarge", ⟨4, 16⟩), ("t3.micro", ⟨2, 1⟩)]) ∧
      (∀ c ∈ sortedCandidates
          (fun n => if n = "m5.large" then some ((96:ℚ)/1000)
            else if n = "m5.xlarge" then some (192/1000) else none) 720
          (famPfxOf "m5.xlarge")
          [("m5.large", ⟨2, 8⟩), ("m5.xlarge", ⟨4, 16⟩), ("t3.micro", ⟨2, 1⟩)],
        strStartsWith c.name (famPfxOf "m5.xlarge") = true ∧
        ∃ q, (fun n => if n = "m5.large" then some ((96:ℚ)/1000)
            else if n = "m5.xlarge" then some (192/1000) else none) c.name = some q ∧
          0 < q ∧ c.hourly = pyRound q 3 ∧ c.monthly = pyRound (q * 720) 3) ∧
      (∀ c ∈ suggestWindow
          (sortedCandidates
            (fun n => if n = "m5.large" then some ((96:ℚ)/1000)
              else if n = "m5.xlarge" then some (192/1000) else none) 720
            (famPfxOf "m5.xlarge")
            [("m5.large", ⟨2, 8⟩), ("m5.xlarge", ⟨4, 16⟩), ("t3.micro", ⟨2, 1⟩)]) i,
        c.name ≠ "m5.xlarge")) := by
  refine ⟨by simp, rfl, rfl, by norm_num, ?_⟩
  exact c7_suggest_alternatives
    [("m5.large", ⟨2, 8⟩), ("m5.xlarge", ⟨4, 16⟩), ("t3.micro", ⟨2, 1⟩)] "m5.xlarge" 720
    (fun n => if n = "m5.large" then some ((96:ℚ)/1000)
      else if n = "m5.xlarge" then some (192/1000) else none) ⟨4, 16⟩ ((192:ℚ)/1000)
    (by simp) rfl rfl (by norm_num)

/-! ## Claim C10: unpriced current instance crashes the EC2 kind -/

/-- C10: for an instance present in the catalog whose own on-demand price
lookup returns `None` (here t2.micro in `catalogC10` under `odC10`), the
current instance appears in no candidate entry, the located sorted index is
`None`, and `suggest_alternatives` raises (`TypeError`) at the window
computation; the same missing price raises inside `calculate_ec2_costs`
(reached before the per-instance suggestion step), the exception is caught
by `ec2_main`'s catch-all handler, and the whole EC2 kind's optimization
aborts with no totals and no suggestions. -/
theorem c10_unpriced_instance_aborts :
    (∀ c ∈ candidatesFor odC10 720 (famPfxOf "t2.micro") catalogC10,
      c.name ≠ "t2.micro") ∧
    indexOfName "t2.micro"
      (sortedCandidates odC10 720 (famPfxOf "t2.micro") catalogC10) = none ∧
    suggest_alternatives "t2.micro" 720 odC10 catalogC10 = .crash ∧
    ec2_main odC10 spC10 720 catalogC10 [("t2.micro", false)] = .aborted "TypeError" := by
  have hc1 : mkCandidate odC10 720 (famPfxOf "t2.micro") "t2.micro" ⟨1, 1⟩ = none := by
    unfold mkCandidate
    rw [if_pos (show strStartsWith "t2.micro" (famPfxOf "t2.micro") = true from rfl)]
    rw [show odC10 "t2.micro" = none from rfl]
  have hc2 : mkCandidate odC10 720 (famPfxOf "t2.micro") "t2.small" ⟨2, 2⟩ =
      some ⟨"t2.small", 2, 2, pyRound (2/100) 3, pyRound ((2/100) * 720) 3⟩ :=
    mkCandidate_intro rfl rfl (by norm_num)
  have hcands : candidatesFor odC10 720 (famPfxOf "t2.micro") catalogC10 =
      [⟨"t2.small", 2, 2, pyRound (2/100) 3, pyRound ((2/100) * 720) 3⟩] := by
    unfold candidatesFor catalogC10
    rw [List.filterMap_cons, List.filterMap_cons, List.filterMap_nil]
    dsimp only
    rw [hc1, hc2]
  have hsorted : sortedCandidates odC10 720 (famPfxOf "t2.micro") catalogC10 =
      [⟨"t2.small", 2, 2, pyRound (2/100) 3, pyRound ((2/100) * 720) 3⟩] := by
    unfold sortedCandidates
    rw [hcands]
    rfl
  have hindex : indexOfName "t2.micro"
      (sortedCandidates odC10 720 (famPfxOf "t2.micro") catalogC10) = none := by
    rw [hsorted]
    rfl
  refine ⟨?_, hindex, ?_, rfl⟩
  · intro c hc
    rw [hcands] at hc
    simp only [List.mem_singleton] at hc
    subst hc
    simp
  · unfold suggest_alternatives
    rw [show List.lookup "t2.micro" catalogC10 = some ⟨1, 1⟩ from rfl]
    dsimp only
    rw [hindex]
